import Mathlib

/-!
Verification of the lead-qualification core of the `inmobilia-ai` repository.

The Python data model (`src/models/lead_data.py`), the deterministic routing
fallback (`src/agents/supervisor_agent.py`), the legal-consent handler
(`src/agents/legal_agent.py`), the per-agent first-write merge
(`src/agents/collector_agent.py` and the location/preferences agents), the
MVP consent check (`src/graphs/mvp_graph.py`) and the turn-level error
boundary (`src/graphs/inmobilia_graph.py`) are shallowly embedded below.
Python dictionaries become association lists over a dynamic value type,
Python `float` budgets become `Rat` (only comparison and storage are
performed on them, never rounding arithmetic), timestamps become opaque
strings passed in as a `now` parameter, and raised exceptions become
`Except` values.
-/

namespace Inmobilia

/-- Dynamic values stored in the Python dictionaries of the program.
`vDictS` covers the one nested mapping that occurs (the `metadata`
sub-model, all of whose fields are strings or `None`). -/
inductive PyVal where
  | vNone : PyVal
  | vStr (s : String) : PyVal
  | vBool (b : Bool) : PyVal
  | vInt (n : Int) : PyVal
  | vRat (q : Rat) : PyVal
  | vDictS (d : List (String × String)) : PyVal
deriving DecidableEq, Repr

/-- Python truthiness (`bool(v)`) for the values of `PyVal`:
`None`, `""`, `False`, `0`, `0.0` and `{}` are falsy. -/
def PyVal.truthy : PyVal → Bool
  | .vNone => false
  | .vStr s => !(s == "")
  | .vBool b => b
  | .vInt n => !(n == 0)
  | .vRat q => !(q == 0)
  | .vDictS d => !d.isEmpty

/-- A Python `dict` with string keys, as an insertion-ordered association list
with distinct keys maintained by `dictSet`. -/
abbrev Dict := List (String × PyVal)

/-- `d[k]` lookup returning `none` when the key is absent (`k in d` is
`(dictGet d k).isSome`). -/
def dictGet (d : Dict) (k : String) : Option PyVal :=
  (d.find? (fun p => p.1 == k)).map (·.2)

/-- Python `d.get(k)`: absent keys give `None`. -/
def dictGetD (d : Dict) (k : String) : PyVal :=
  (dictGet d k).getD .vNone

/-- Truthiness of `d.get(k)`, the idiom `if d.get(k):`. -/
def truthyGet (d : Dict) (k : String) : Bool :=
  (dictGetD d k).truthy

/-- Python `d[k] = v`: replaces the value in place when the key exists
(keeping insertion order), appends otherwise. -/
def dictSet (d : Dict) (k : String) (v : PyVal) : Dict :=
  if (d.find? (fun p => p.1 == k)).isSome then
    d.map (fun p => if p.1 == k then (k, v) else p)
  else
    d ++ [(k, v)]

/-- Python `k in d`. -/
def dictContains (d : Dict) (k : String) : Bool :=
  (d.find? (fun p => p.1 == k)).isSome

/-- ASCII and Spanish-alphabet lowering of one character; models CPython
`str.lower` on the alphabet this program's keyword lists draw from. -/
def pyLowerChar (c : Char) : Char :=
  if 'A' ≤ c ∧ c ≤ 'Z' then Char.ofNat (c.toNat + 32)
  else if c = 'Á' then 'á'
  else if c = 'É' then 'é'
  else if c = 'Í' then 'í'
  else if c = 'Ó' then 'ó'
  else if c = 'Ú' then 'ú'
  else if c = 'Ñ' then 'ñ'
  else if c = 'Ü' then 'ü'
  else c

/-- Models Python `s.lower()`. -/
def pyLower (s : String) : String :=
  String.mk (s.toList.map pyLowerChar)

/-- Does `hay` start with `needle`? -/
def listStartsWith : List Char → List Char → Bool
  | _, [] => true
  | [], _ :: _ => false
  | h :: hs, n :: ns => h == n && listStartsWith hs ns

/-- Is `needle` a contiguous run inside `hay`? -/
def listContainsSub : List Char → List Char → Bool
  | [], needle => listStartsWith [] needle
  | h :: hs, needle => listStartsWith (h :: hs) needle || listContainsSub hs needle

/-- Python's substring operator `sub in s`. -/
def strContains (s sub : String) : Bool :=
  listContainsSub s.toList sub.toList

/-- `LeadMetadata` (src/models/lead_data.py lines 13-25): additional metadata
for a lead; the two creation/modification stamps are produced by
`datetime.now().isoformat()` default factories, modelled by the `now`
argument of `LeadMetadata.init`. -/
structure LeadMetadata where
  fecha_creacion : String
  fecha_modificacion : String
  fecha_consentimiento : Option String := none
  origen : Option String := none
  utm_source : Option String := none
  utm_medium : Option String := none
  utm_campaign : Option String := none
  dispositivo : Option String := none
  agente_asignado : Option String := none
  ultima_interaccion : Option String := none
deriving DecidableEq, Repr

/-- `LeadMetadata()` with both timestamp default factories evaluating at
time `now`. -/
def LeadMetadata.init (now : String) : LeadMetadata :=
  { fecha_creacion := now, fecha_modificacion := now }

/-- `LeadData` (src/models/lead_data.py lines 28-65): the lead record. Field
order matches the Python declaration order (which fixes `model_dump` order).
Budgets (`Optional[float]`) are modelled as `Option Rat`; the program only
stores and compares them. -/
structure LeadData where
  nombre : Option String := none
  tipo_inmueble : Option String := none
  consentimiento : Option Bool := none
  celular : Option String := none
  email : Option String := none
  distrito : Option String := none
  zona : Option String := none
  metraje : Option Int := none
  habitaciones : Option Int := none
  presupuesto_min : Option Rat := none
  presupuesto_max : Option Rat := none
  tipo_documento : Option String := none
  numero_documento : Option String := none
  timeline_compra : Option String := none
  estado : String := "ConversacionIniciada"
  metadata : Option LeadMetadata := none
deriving DecidableEq, Repr

/-- `LeadData()` built with no arguments at time `now` (the `metadata`
default factory constructs a fresh `LeadMetadata`). -/
def LeadData.init (now : String) : LeadData :=
  { metadata := some (LeadMetadata.init now) }

/-- `check_presupuesto_range` (src/models/lead_data.py lines 111-123), the
`model_validator(mode="after")`: when both budgets are present and
`presupuesto_min > presupuesto_max`, the two stored values are swapped.
With `validate_assignment = True` it runs after construction and after
every field assignment. -/
def check_presupuesto_range (l : LeadData) : LeadData :=
  match l.presupuesto_min, l.presupuesto_max with
  | some a, some b =>
      if a > b then
        { l with presupuesto_min := some b, presupuesto_max := some a }
      else l
  | _, _ => l

/-- `p10_missing` computed by `update_estado` (lines 129-130): the mandatory
fields (`nombre`, `tipo_inmueble`, `consentimiento`) that are `None`. -/
def p10_missing (l : LeadData) : List String :=
  (if l.nombre = none then ["nombre"] else []) ++
  (if l.tipo_inmueble = none then ["tipo_inmueble"] else []) ++
  (if l.consentimiento = none then ["consentimiento"] else [])

/-- `p9_completed` (lines 133-134): how many of `celular`, `email`,
`distrito`, `metraje` are not `None`. -/
def p9_completed (l : LeadData) : Nat :=
  (if l.celular.isSome then 1 else 0) + (if l.email.isSome then 1 else 0) +
  (if l.distrito.isSome then 1 else 0) + (if l.metraje.isSome then 1 else 0)

/-- `p8_completed` (lines 137-138): how many of `habitaciones`,
`presupuesto_min`, `presupuesto_max` are not `None`. -/
def p8_completed (l : LeadData) : Nat :=
  (if l.habitaciones.isSome then 1 else 0) +
  (if l.presupuesto_min.isSome then 1 else 0) +
  (if l.presupuesto_max.isSome then 1 else 0)

/-- `update_estado` (src/models/lead_data.py lines 126-151): recomputes
`estado` from field completion and stamps `metadata.fecha_modificacion`
with the current time (`now`). The branch conditions are transcribed
verbatim, redundant conjuncts included. -/
def update_estado (l : LeadData) (now : String) : LeadData :=
  let estado :=
    if p10_missing l ≠ [] then "ConversacionIniciada"
    else if p10_missing l = [] ∧ p9_completed l < 2 then "PreLead"
    else if 2 ≤ p9_completed l ∧ p8_completed l < 2 then "Lead"
    else "LeadEnriquecido"
  let l' := { l with estado := estado }
  match l'.metadata with
  | some m => { l' with metadata := some { m with fecha_modificacion := now } }
  | none => l'

/-- `is_core_complete` (lines 153-161). -/
def is_core_complete (l : LeadData) : Bool :=
  l.nombre.isSome && l.tipo_inmueble.isSome && (l.consentimiento == some true)

/-- `is_contact_complete` (lines 163-165). -/
def is_contact_complete (l : LeadData) : Bool :=
  l.celular.isSome || l.email.isSome

/-- The `None`-valued fields of the P9 list of `get_missing_fields`. -/
def p9_missing (l : LeadData) : List String :=
  (if l.celular = none then ["celular"] else []) ++
  (if l.email = none then ["email"] else []) ++
  (if l.distrito = none then ["distrito"] else []) ++
  (if l.metraje = none then ["metraje"] else [])

/-- The `None`-valued fields of the P8 list of `get_missing_fields`. -/
def p8_missing (l : LeadData) : List String :=
  (if l.habitaciones = none then ["habitaciones"] else []) ++
  (if l.presupuesto_min = none then ["presupuesto_min"] else []) ++
  (if l.presupuesto_max = none then ["presupuesto_max"] else [])

/-- The `None`-valued fields of the P7 list of `get_missing_fields`. -/
def p7_missing (l : LeadData) : List String :=
  (if l.tipo_documento = none then ["tipo_documento"] else []) ++
  (if l.numero_documento = none then ["numero_documento"] else []) ++
  (if l.timeline_compra = none then ["timeline_compra"] else [])

/-- `get_missing_fields` (src/models/lead_data.py lines 167-194): builds the
missing list by appending, in order, the blocks guarded by
`priority >= 10`, `priority >= 9`, `priority >= 8`, `priority >= 7`. -/
def get_missing_fields (l : LeadData) (priority : Int) : List String :=
  (if priority ≥ 10 then p10_missing l else []) ++
  (if priority ≥ 9 then p9_missing l else []) ++
  (if priority ≥ 8 then p8_missing l else []) ++
  (if priority ≥ 7 then p7_missing l else [])

/-- Python `int(s)` on an already-cleaned string: optional sign and digits,
surrounding whitespace allowed. -/
def pyStrToInt? (s : String) : Option Int :=
  s.trim.toInt?

/-- The integer value of a non-empty run of decimal digits. -/
def digitsToNat (cs : List Char) : Nat :=
  cs.foldl (fun n c => n * 10 + (c.toNat - '0'.toNat)) 0

/-- Python `float(s)` restricted to plain decimal notation: optional sign,
digits, optional fractional part. -/
def pyStrToRat? (s : String) : Option Rat :=
  let t := s.trim.toList
  let (sign, u) : Rat × List Char :=
    match t with
    | '-' :: rest => (-1, rest)
    | '+' :: rest => (1, rest)
    | l => (1, l)
  let intPart := u.takeWhile (·.isDigit)
  let rest := u.dropWhile (·.isDigit)
  match rest with
  | [] =>
      if intPart.isEmpty then none
      else some (sign * (digitsToNat intPart : Rat))
  | '.' :: frac =>
      if frac.all (·.isDigit) ∧ ¬(intPart.isEmpty ∧ frac.isEmpty) then
        some (sign * ((digitsToNat intPart : Rat) +
          (digitsToNat frac : Rat) / ((10 : Rat) ^ frac.length)))
      else none
  | _ => none

/-- Pydantic validation of a value against an `Optional[str]` field: strings
and `None` pass, anything else raises `ValidationError`. -/
def convStr : PyVal → Except Unit (Option String)
  | .vNone => .ok none
  | .vStr s => .ok (some s)
  | _ => .error ()

/-- Pydantic validation against `Optional[bool]` (`consentimiento`). -/
def convBool : PyVal → Except Unit (Option Bool)
  | .vNone => .ok none
  | .vBool b => .ok (some b)
  | _ => .error ()

/-- Pydantic lax validation against `Optional[int]` (`metraje`,
`habitaciones`): ints pass, numeric strings are coerced, anything else
raises. The custom `field_validator`s on these fields run in mode
`"after"`, so they only ever see an already-coerced `int`/`None` value and
act as the identity (their `isinstance(value, str)` branch is unreachable;
the repository's own unit tests parse strings manually for this reason). -/
def convInt : PyVal → Except Unit (Option Int)
  | .vNone => .ok none
  | .vInt n => .ok (some n)
  | .vStr s =>
      match pyStrToInt? s with
      | some n => .ok (some n)
      | none => .error ()
  | _ => .error ()

/-- Pydantic lax validation against `Optional[float]` (`presupuesto_min`,
`presupuesto_max`); same remark about the mode-`"after"` custom validator
as for `convInt`. -/
def convRat : PyVal → Except Unit (Option Rat)
  | .vNone => .ok none
  | .vRat q => .ok (some q)
  | .vInt n => .ok (some (n : Rat))
  | .vStr s =>
      match pyStrToRat? s with
      | some q => .ok (some q)
      | none => .error ()
  | _ => .error ()

/-- `model_dump(exclude_none=True)` of a `LeadMetadata`: the two mandatory
timestamps plus every optional field that is set, in declaration order. -/
def metadataToDict (m : LeadMetadata) : List (String × String) :=
  [("fecha_creacion", m.fecha_creacion), ("fecha_modificacion", m.fecha_modificacion)] ++
  (match m.fecha_consentimiento with | some v => [("fecha_consentimiento", v)] | none => []) ++
  (match m.origen with | some v => [("origen", v)] | none => []) ++
  (match m.utm_source with | some v => [("utm_source", v)] | none => []) ++
  (match m.utm_medium with | some v => [("utm_medium", v)] | none => []) ++
  (match m.utm_campaign with | some v => [("utm_campaign", v)] | none => []) ++
  (match m.dispositivo with | some v => [("dispositivo", v)] | none => []) ++
  (match m.agente_asignado with | some v => [("agente_asignado", v)] | none => []) ++
  (match m.ultima_interaccion with | some v => [("ultima_interaccion", v)] | none => [])

/-- Lookup in a string-valued mapping. -/
def sLookup (d : List (String × String)) (k : String) : Option String :=
  (d.find? (fun p => p.1 == k)).map (·.2)

/-- Pydantic construction of a `LeadMetadata` from a mapping: absent
timestamps fall back to their `datetime.now()` default factories (time
`now`), absent optional fields to `None`. -/
def metadataFromDict (d : List (String × String)) (now : String) : LeadMetadata :=
  { fecha_creacion := (sLookup d "fecha_creacion").getD now
    fecha_modificacion := (sLookup d "fecha_modificacion").getD now
    fecha_consentimiento := sLookup d "fecha_consentimiento"
    origen := sLookup d "origen"
    utm_source := sLookup d "utm_source"
    utm_medium := sLookup d "utm_medium"
    utm_campaign := sLookup d "utm_campaign"
    dispositivo := sLookup d "dispositivo"
    agente_asignado := sLookup d "agente_asignado"
    ultima_interaccion := sLookup d "ultima_interaccion" }

/-- Pydantic validation against `Optional[LeadMetadata]`. -/
def convMetadata (v : PyVal) (now : String) : Except Unit (Option LeadMetadata)
  :=
  match v with
  | .vNone => .ok none
  | .vDictS d => .ok (some (metadataFromDict d now))
  | _ => .error ()

/-- The attribute names of `LeadData`; `hasattr(lead, k)` holds exactly for
these. -/
def leadFieldNames : List String :=
  ["nombre", "tipo_inmueble", "consentimiento", "celular", "email",
   "distrito", "zona", "metraje", "habitaciones", "presupuesto_min",
   "presupuesto_max", "tipo_documento", "numero_documento",
   "timeline_compra", "estado", "metadata"]

/-- The assignment part of `setattr(lead, k, v)`: the value is validated
against the field's annotation and stored; raises (`.error`) on a type the
field rejects. -/
def setFieldRaw (l : LeadData) (k : String) (v : PyVal) (now : String) :
    Except Unit LeadData :=
  if k = "nombre" then (convStr v).map fun o => { l with nombre := o }
  else if k = "tipo_inmueble" then (convStr v).map fun o => { l with tipo_inmueble := o }
  else if k = "consentimiento" then (convBool v).map fun o => { l with consentimiento := o }
  else if k = "celular" then (convStr v).map fun o => { l with celular := o }
  else if k = "email" then (convStr v).map fun o => { l with email := o }
  else if k = "distrito" then (convStr v).map fun o => { l with distrito := o }
  else if k = "zona" then (convStr v).map fun o => { l with zona := o }
  else if k = "metraje" then (convInt v).map fun o => { l with metraje := o }
  else if k = "habitaciones" then (convInt v).map fun o => { l with habitaciones := o }
  else if k = "presupuesto_min" then (convRat v).map fun o => { l with presupuesto_min := o }
  else if k = "presupuesto_max" then (convRat v).map fun o => { l with presupuesto_max := o }
  else if k = "tipo_documento" then (convStr v).map fun o => { l with tipo_documento := o }
  else if k = "numero_documento" then (convStr v).map fun o => { l with numero_documento := o }
  else if k = "timeline_compra" then (convStr v).map fun o => { l with timeline_compra := o }
  else if k = "estado" then
    match v with
    | .vStr s => .ok { l with estado := s }
    | _ => .error ()
  else if k = "metadata" then (convMetadata v now).map fun o => { l with metadata := o }
  else .error ()

/-- `setattr(lead, k, v)` under `validate_assignment = True`: validated
assignment followed by the `mode="after"` model validator
`check_presupuesto_range` re-running on the updated record. -/
def setField (l : LeadData) (k : String) (v : PyVal) (now : String) :
    Except Unit LeadData :=
  (setFieldRaw l k v now).map check_presupuesto_range

/-- The loop of `update_from_dict` (src/models/lead_data.py lines 202-204):
`for key, value in data.items(): if value is not None and hasattr(self, key):
setattr(self, key, value)`. -/
def applyEntries (l : LeadData) (now : String) : Dict → Except Unit LeadData
  | [] => .ok l
  | (k, v) :: rest =>
      if v ≠ PyVal.vNone ∧ k ∈ leadFieldNames then
        match setField l k v now with
        | .ok l' => applyEntries l' now rest
        | .error e => .error e
      else applyEntries l now rest

/-- `update_from_dict` (src/models/lead_data.py lines 200-207): apply the
non-`None` entries whose keys are model attributes, then `update_estado`. -/
def update_from_dict (l : LeadData) (d : Dict) (now : String) :
    Except Unit LeadData :=
  (applyEntries l now d).map fun l' => update_estado l' now

/-- One entry of a `model_dump(exclude_none=True)` result. -/
def optEntry (k : String) (v : Option PyVal) : Dict :=
  match v with
  | some x => [(k, x)]
  | none => []

/-- `to_dict` (src/models/lead_data.py lines 196-198):
`model_dump(exclude_none=True)` — every set field in declaration order,
`None`-valued fields omitted, `metadata` dumped as a nested mapping. -/
def to_dict (l : LeadData) : Dict :=
  optEntry "nombre" (l.nombre.map .vStr) ++
  optEntry "tipo_inmueble" (l.tipo_inmueble.map .vStr) ++
  optEntry "consentimiento" (l.consentimiento.map .vBool) ++
  optEntry "celular" (l.celular.map .vStr) ++
  optEntry "email" (l.email.map .vStr) ++
  optEntry "distrito" (l.distrito.map .vStr) ++
  optEntry "zona" (l.zona.map .vStr) ++
  optEntry "metraje" (l.metraje.map .vInt) ++
  optEntry "habitaciones" (l.habitaciones.map .vInt) ++
  optEntry "presupuesto_min" (l.presupuesto_min.map .vRat) ++
  optEntry "presupuesto_max" (l.presupuesto_max.map .vRat) ++
  optEntry "tipo_documento" (l.tipo_documento.map .vStr) ++
  optEntry "numero_documento" (l.numero_documento.map .vStr) ++
  optEntry "timeline_compra" (l.timeline_compra.map .vStr) ++
  [("estado", PyVal.vStr l.estado)] ++
  optEntry "metadata" (l.metadata.map (fun m => PyVal.vDictS (metadataToDict m)))

/-- Validation of one optional field during `LeadData(**d)` construction:
an absent key falls back to the `None` default. -/
def getF {α : Type} (d : Dict) (k : String)
    (conv : PyVal → Except Unit (Option α)) : Except Unit (Option α) :=
  match dictGet d k with
  | none => .ok none
  | some v => conv v

/-- Validation of the `estado` field during construction: a missing key
takes the default `"ConversacionIniciada"`, a string passes, any other
type raises. -/
def getEstado (d : Dict) : Except Unit String :=
  match dictGet d "estado" with
  | none => .ok "ConversacionIniciada"
  | some (.vStr s) => .ok s
  | some _ => .error ()

/-- Validation of the `metadata` field during construction: a missing key
runs the `LeadMetadata` default factory at time `now`. -/
def getMetadata (d : Dict) (now : String) : Except Unit (Option LeadMetadata) :=
  match dictGet d "metadata" with
  | none => .ok (some (LeadMetadata.init now))
  | some v => convMetadata v now

/-- `LeadData(**d)` (pydantic construction, `extra = "ignore"`): each field
is validated from the mapping (missing keys take their defaults), then the
`mode="after"` model validator `check_presupuesto_range` runs once. -/
def fromDict (d : Dict) (now : String) : Except Unit LeadData := do
  let nombre ← getF d "nombre" convStr
  let tipo_inmueble ← getF d "tipo_inmueble" convStr
  let consentimiento ← getF d "consentimiento" convBool
  let celular ← getF d "celular" convStr
  let email ← getF d "email" convStr
  let distrito ← getF d "distrito" convStr
  let zona ← getF d "zona" convStr
  let metraje ← getF d "metraje" convInt
  let habitaciones ← getF d "habitaciones" convInt
  let presupuesto_min ← getF d "presupuesto_min" convRat
  let presupuesto_max ← getF d "presupuesto_max" convRat
  let tipo_documento ← getF d "tipo_documento" convStr
  let numero_documento ← getF d "numero_documento" convStr
  let timeline_compra ← getF d "timeline_compra" convStr
  let estado ← getEstado d
  let metadata ← getMetadata d now
  return check_presupuesto_range
    { nombre := nombre, tipo_inmueble := tipo_inmueble,
      consentimiento := consentimiento, celular := celular, email := email,
      distrito := distrito, zona := zona, metraje := metraje,
      habitaciones := habitaciones, presupuesto_min := presupuesto_min,
      presupuesto_max := presupuesto_max, tipo_documento := tipo_documento,
      numero_documento := numero_documento, timeline_compra := timeline_compra,
      estado := estado, metadata := metadata }

/-- The conversation state dictionary (`AgentState`,
src/models/agent_state.py), restricted to the keys the embedded operations
read or write. Messages are (role, content) pairs. -/
structure AgentState where
  lead_data : Dict := []
  lead_obj : Option LeadData := none
  messages : List (String × String) := []
  current_message : String := ""
  last_agent : String := "none"
  last_response : String := ""
  session_id : String := ""
  user_id : String := ""
  conversation_start_time : String := ""
  routing_decisions : List String := []
  error : Option String := none
  next : Option String := none
  current_agent : Option String := none
deriving DecidableEq, Repr

/-- `get_initial_state` (src/models/agent_state.py lines 62-80). -/
def get_initial_state (message session_id : String) (user_id : Option String)
    (now : String) : AgentState :=
  { lead_data := [], lead_obj := none,
    messages := [("user", message)], current_message := message,
    last_agent := "none", last_response := "",
    session_id := session_id, user_id := user_id.getD session_id,
    conversation_start_time := now, routing_decisions := [],
    error := none, next := none, current_agent := none }

/-- Farewell keywords of `decide_next_agent`
(src/agents/supervisor_agent.py line 319). -/
def farewell_words : List String :=
  ["gracias", "adios", "adiós", "chau", "hasta luego", "terminar", "finalizar"]

/-- Budget/room keywords (line 353). -/
def budget_words : List String :=
  ["precio", "costo", "presupuesto", "habitacion", "habitación", "cuarto"]

/-- Location keywords (line 355). -/
def location_words : List String :=
  ["zona", "distrito", "ubicacion", "ubicación", "lugar", "donde"]

/-- Identity/contact keywords (line 357). -/
def contact_words : List String :=
  ["nombre", "llamo", "contacto", "celular", "teléfono", "email", "correo"]

/-- Truthiness of `state.get("next")` combined with `!= "supervisor"`:
the guard of the pending-target step. -/
def pendingNext (s : AgentState) : Bool :=
  match s.next with
  | some t => !(t == "") && !(t == "supervisor")
  | none => false

/-- `SupervisorAgent.decide_next_agent`
(src/agents/supervisor_agent.py lines 296-366), the deterministic routing
fallback, transcribed clause by clause (redundant `consentimiento`
conjuncts included). -/
def decide_next_agent (s : AgentState) : String :=
  if pendingNext s then (s.next.getD "")
  else
    let message := pyLower s.current_message
    if farewell_words.any (fun w => strContains message w) &&
        truthyGet s.lead_data "consentimiento" then "END"
    else if !truthyGet s.lead_data "consentimiento" then "legal"
    else if truthyGet s.lead_data "consentimiento" &&
        (!truthyGet s.lead_data "nombre" ||
         !(truthyGet s.lead_data "celular" || truthyGet s.lead_data "email")) then
      "collector"
    else if truthyGet s.lead_data "consentimiento" &&
        (!truthyGet s.lead_data "distrito" ||
         !truthyGet s.lead_data "tipo_inmueble") then
      "location"
    else if truthyGet s.lead_data "consentimiento" &&
        truthyGet s.lead_data "tipo_inmueble" &&
        (!truthyGet s.lead_data "presupuesto_max" ||
         !truthyGet s.lead_data "habitaciones") then
      "preferences"
    else if (match s.lead_obj with
             | some lo => lo.estado == "LeadEnriquecido"
             | none => false) then "END"
    else if budget_words.any (fun w => strContains message w) then "preferences"
    else if location_words.any (fun w => strContains message w) then "location"
    else if contact_words.any (fun w => strContains message w) then "collector"
    else if truthyGet s.lead_data "consentimiento" then "preferences"
    else "legal"

/-- Python exception classes relevant to the embedded `try/except` clauses:
the three classes named by `router_node`'s handler, and everything else
(timeouts, connection errors, ...). `except` clauses catch subclasses, so
e.g. `pydantic.ValidationError` is a `valueError` here. -/
inductive PyExcClass where
  | keyError : PyExcClass
  | valueError : PyExcClass
  | typeError : PyExcClass
  | other (name : String) : PyExcClass
deriving DecidableEq, Repr

/-- A raised Python exception: its class and its `str(e)` text. -/
structure PyExc where
  cls : PyExcClass
  msg : String
deriving DecidableEq, Repr

/-- Structured routing decision returned by the LLM (`RouterResponse`,
src/agents/supervisor_agent.py lines 31-34). -/
structure RouterResponse where
  next : String
  reasoning : String
deriving DecidableEq, Repr

/-- The decision step of `SupervisorAgent.router_node`
(src/agents/supervisor_agent.py lines 219-241): the LLM-backed structured
call is the `llm` outcome; on success its `next` field is used, on a raised
`KeyError`, `ValueError` or `TypeError` the deterministic
`decide_next_agent` fallback is used, and any other exception class
propagates out of the `try` statement. -/
def router_node_decision (llm : Except PyExc RouterResponse)
    (s : AgentState) : Except PyExc String :=
  match llm with
  | .ok r => .ok r.next
  | .error e =>
      match e.cls with
      | .keyError => .ok (decide_next_agent s)
      | .valueError => .ok (decide_next_agent s)
      | .typeError => .ok (decide_next_agent s)
      | .other _ => .error e

/-- Consent keywords of `LegalAgent.process_message`
(src/agents/legal_agent.py line 128). -/
def consent_words : List String :=
  ["si", "sí", "acepto", "autorizo", "de acuerdo", "ok", "claro"]

/-- Result of one `LegalAgent.process_message` call: the updated user-data
mapping and the agent's `consent_obtained` flag. -/
structure LegalResult where
  user_data : Dict
  consent_obtained : Bool
deriving DecidableEq, Repr

/-- The data-updating core of `LegalAgent.process_message`
(src/agents/legal_agent.py lines 99-134): `consent_obtained` is first
refreshed from `user_data.get("consentimiento") is True`; then, if consent
is not yet obtained and the lowercased message contains one of
`consent_words` as a substring, `consentimiento` is set to `True` and
`fecha_consentimiento` to the current time in the mapping. (The LLM reply
text does not influence the data and is not modelled.) -/
def legal_process_message (user_input : String) (user_data : Dict)
    (consent_obtained : Bool) (now : String) : LegalResult :=
  let consent_obtained :=
    consent_obtained || (dictGetD user_data "consentimiento" == PyVal.vBool true)
  if !consent_obtained &&
      consent_words.any (fun w => strContains (pyLower user_input) w) then
    { user_data :=
        dictSet (dictSet user_data "consentimiento" (PyVal.vBool true))
          "fecha_consentimiento" (PyVal.vStr now),
      consent_obtained := true }
  else
    { user_data := user_data, consent_obtained := consent_obtained }

/-- The lead-record update of `LegalAgent.process_node`
(src/agents/legal_agent.py lines 56-97): run `process_message` on the
current message and lead-data mapping, then fold the updated mapping into
the existing `LeadData` via `update_from_dict` (or construct one if the
state has none). Returns the updated mapping, lead record and consent
flag. -/
def legal_process_node (current_message : String) (lead_data : Dict)
    (lead_obj : Option LeadData) (consent_obtained : Bool) (now : String) :
    Except Unit (Dict × LeadData × Bool) := do
  let r := legal_process_message current_message lead_data consent_obtained now
  let lead' ← match lead_obj with
    | some lo => update_from_dict lo r.user_data now
    | none => fromDict r.user_data now
  return (r.user_data, lead', r.consent_obtained)

/-- The merge loop shared by the collector, location and preferences agents
(src/agents/collector_agent.py lines 113-116):
`if value and (key not in user_data or not user_data[key]):
user_data[key] = value` — an extracted value lands only on a field whose
current value is absent or falsy. -/
def merge_extracted (user_data extracted : Dict) : Dict :=
  extracted.foldl
    (fun d p =>
      if p.2.truthy && (!dictContains d p.1 || !(dictGetD d p.1).truthy) then
        dictSet d p.1 p.2
      else d)
    user_data

/-- Affirmative keywords of `check_consent` (src/graphs/mvp_graph.py
lines 149-155). -/
def affirmative_terms : List String :=
  ["si", "sí", "acepto", "autorizo", "de acuerdo", "ok", "claro",
   "por supuesto", "adelante"]

/-- `check_consent` (src/graphs/mvp_graph.py lines 149-155): the message
contains consent iff its lowercased text has one of `affirmative_terms`
as a substring. -/
def check_consent (message : String) : Bool :=
  affirmative_terms.any (fun term => strContains (pyLower message) term)

/-- `process_message` of the conversation loop
(src/graphs/inmobilia_graph.py lines 85-150). The pre-`try` mutation
(setting `current_message` and appending the user message) is applied
first; the whole `try` body — graph invocation, analytics, persistence —
is the `invoke` outcome; `except Exception` catches every exception class,
stores `str(e)` in the state's `error` field and returns that state. On
success, `last_agent` is refreshed from `current_agent` when they differ. -/
def graph_process_message (state : Option AgentState) (message : String)
    (session_id : String) (user_id : Option String)
    (invoke : AgentState → Except PyExc AgentState) (now : String) :
    AgentState :=
  let s := match state with
    | none => get_initial_state message session_id user_id now
    | some s0 =>
        { s0 with current_message := message,
                  messages := s0.messages ++ [("user", message)] }
  match invoke s with
  | .ok result =>
      match result.current_agent with
      | some ca => if ca ≠ s.last_agent then { result with last_agent := ca } else result
      | none => result
  | .error e => { s with error := some e.msg }

/-! ### Helper lemmas -/

theorem except_bind_ok {ε α β : Type} (x : Except ε α) (f : α → Except ε β)
    (b : β) : (x >>= f = Except.ok b) ↔ ∃ a, x = Except.ok a ∧ f a = Except.ok b := by
  cases x <;> simp [Bind.bind, Except.bind]

theorem except_map_ok {ε α β : Type} (f : α → β) (x : Except ε α) (b : β) :
    (Except.map f x = Except.ok b) ↔ ∃ a, x = Except.ok a ∧ f a = b := by
  cases x <;> simp [Except.map]

theorem find_replace_self (d : Dict) (k : String) (v : PyVal) :
    (d.map (fun p => if p.1 == k then (k, v) else p)).find? (fun p => p.1 == k)
      = (d.find? (fun p => p.1 == k)).map (fun _ => (k, v)) := by
  induction d with
  | nil => rfl
  | cons p rest ih =>
      simp only [List.map_cons]
      by_cases hk : (p.1 == k) = true
      · rw [if_pos hk]
        simp only [List.find?, hk, beq_self_eq_true]
        rfl
      · have hf : (p.1 == k) = false := by simpa using hk
        rw [if_neg hk]
        simp only [List.find?, hf]
        exact ih

theorem find_replace_ne (d : Dict) (k k' : String) (v : PyVal)
    (h : ¬ (k' = k)) :
    (d.map (fun p => if p.1 == k then (k, v) else p)).find? (fun p => p.1 == k')
      = d.find? (fun p => p.1 == k') := by
  induction d with
  | nil => rfl
  | cons p rest ih =>
      simp only [List.map_cons]
      have h1 : ((k : String) == k') = false := by
        simp only [beq_eq_false_iff_ne, ne_eq]
        exact fun hc => h hc.symm
      by_cases hk : (p.1 == k) = true
      · have hpk : p.1 = k := by simpa using hk
        have h2 : (p.1 == k') = false := by rw [hpk]; exact h1
        rw [if_pos hk]
        simp only [List.find?, h1, h2]
        exact ih
      · rw [if_neg hk]
        simp only [List.find?]
        by_cases hp : (p.1 == k') = true
        · simp only [hp]
        · have hpf : (p.1 == k') = false := by simpa using hp
          simp only [hpf]
          exact ih

theorem find_append_entries (l₁ l₂ : Dict) (p : String × PyVal → Bool) :
    (l₁ ++ l₂).find? p =
      match l₁.find? p with
      | some x => some x
      | none => l₂.find? p := by
  induction l₁ with
  | nil => rfl
  | cons q rest ih =>
      simp only [List.cons_append, List.find?]
      by_cases hq : p q = true
      · simp only [hq]
      · have hqf : p q = false := by simpa using hq
        simp only [hqf]
        exact ih

theorem dictGet_dictSet_self (d : Dict) (k : String) (v : PyVal) :
    dictGet (dictSet d k v) k = some v := by
  unfold dictSet dictGet
  split
  case isTrue h =>
    rw [find_replace_self]
    rcases hf : d.find? (fun p => p.1 == k) with _ | x
    · rw [hf] at h
      simp at h
    · rw [hf]
      rfl
  case isFalse h =>
    rw [find_append_entries]
    rcases hf : d.find? (fun p => p.1 == k) with _ | x
    · rw [hf]
      simp [List.find?]
    · rw [hf] at h
      simp at h

theorem dictGet_dictSet_ne (d : Dict) (k k' : String) (v : PyVal)
    (h : ¬ (k' = k)) : dictGet (dictSet d k v) k' = dictGet d k' := by
  unfold dictSet dictGet
  split
  case isTrue hmem => rw [find_replace_ne d k k' v h]
  case isFalse hmem =>
    rw [find_append_entries]
    rcases hf : d.find? (fun p => p.1 == k') with _ | x
    · rw [hf]
      have h1 : ((k : String) == k') = false := by
        simp only [beq_eq_false_iff_ne, ne_eq]
        exact fun hc => h hc.symm
      simp [List.find?, h1]
    · rw [hf]

theorem check_pr_shape (l : LeadData) :
    ∃ mn mx, check_presupuesto_range l =
      { l with presupuesto_min := mn, presupuesto_max := mx } := by
  unfold check_presupuesto_range
  rcases hmin : l.presupuesto_min with _ | a <;>
    rcases hmax : l.presupuesto_max with _ | b
  · exact ⟨l.presupuesto_min, l.presupuesto_max, rfl⟩
  · exact ⟨l.presupuesto_min, l.presupuesto_max, rfl⟩
  · exact ⟨l.presupuesto_min, l.presupuesto_max, rfl⟩
  · dsimp only
    by_cases hab : a > b
    · refine ⟨some b, some a, ?_⟩
      rw [if_pos hab]
    · refine ⟨l.presupuesto_min, l.presupuesto_max, ?_⟩
      rw [if_neg hab]

theorem update_estado_shape (l : LeadData) (now : String) :
    ∃ e md, update_estado l now = { l with estado := e, metadata := md } := by
  unfold update_estado
  rcases hm : l.metadata with _ | m
  · exact ⟨_, _, rfl⟩
  · exact ⟨_, _, rfl⟩

/-! ### C5: routing failure semantics -/

/-- C5 (corrected). The routing cascade never raises only for the three
handled exception classes: on a successful structured LLM decision the
decision's `next` is used; on a raised `KeyError`, `ValueError` or
`TypeError` the deterministic fallback `decide_next_agent` supplies the
target; any other exception class (e.g. a timeout) propagates out of
`router_node`'s decision step. -/
theorem C5_router_fallback_amended :
    (∀ (r : RouterResponse) (s : AgentState),
        router_node_decision (Except.ok r) s = Except.ok r.next) ∧
    (∀ (e : PyExc) (s : AgentState),
        (e.cls = PyExcClass.keyError ∨ e.cls = PyExcClass.valueError ∨
         e.cls = PyExcClass.typeError) →
        router_node_decision (Except.error e) s =
          Except.ok (decide_next_agent s)) ∧
    (∀ (name m : String) (s : AgentState),
        router_node_decision
            (Except.error { cls := PyExcClass.other name, msg := m }) s =
          Except.error { cls := PyExcClass.other name, msg := m }) := by
  refine ⟨fun r s => rfl, fun e s h => ?_, fun name m s => rfl⟩
  rcases e with ⟨cls, msg⟩
  rcases h with h | h | h <;> simp_all [router_node_decision]

/-- C5 counterexample: an exception that is not a `KeyError`, `ValueError`
or `TypeError` (here a timeout) is not caught by `router_node`'s handler
and propagates instead of producing a routing command. -/
theorem C5_counterexample :
    router_node_decision
        (Except.error { cls := PyExcClass.other "TimeoutError", msg := "timed out" })
        {} =
      Except.error { cls := PyExcClass.other "TimeoutError", msg := "timed out" } := rfl

/-! ### C8: turn-level exception containment -/

/-- C8 (corrected, amended part). If any exception escapes the `try` body of
the conversation loop's `process_message`, the call returns (rather than
raises) the pre-invocation state — the input state with the user message
appended and `current_message` set — with `error` holding the exception
text; every other key, in particular the previous agent reply
(`last_response`) and the message log, is untouched, so no user-visible
failure message is produced and the session can accept the next turn. -/
theorem C8_turn_error_containment_amended :
    ∀ (s0 : AgentState) (message session_id : String) (uid : Option String)
      (invoke : AgentState → Except PyExc AgentState) (e : PyExc)
      (now : String),
      invoke { s0 with current_message := message,
                       messages := s0.messages ++ [("user", message)] } =
          Except.error e →
      graph_process_message (some s0) message session_id uid invoke now =
        { s0 with current_message := message,
                  messages := s0.messages ++ [("user", message)],
                  error := some e.msg } := by
  intro s0 message session_id uid invoke e now h
  unfold graph_process_message
  simp only [h]

/-- C8 witness: the amended containment theorem applied at a concrete state
and a concrete raised exception. -/
theorem C8_turn_error_containment_witness :
    graph_process_message
        (some { last_response := "previous reply",
                messages := [("assistant", "previous reply")] })
        "hola" "s1" none (fun _ => Except.error { cls := PyExcClass.other "RuntimeError", msg := "boom" }) "t9" =
      { last_response := "previous reply",
        messages := [("assistant", "previous reply"), ("user", "hola")],
        current_message := "hola",
        error := some "boom" } := by
  exact C8_turn_error_containment_amended
    { last_response := "previous reply",
      messages := [("assistant", "previous reply")] }
    "hola" "s1" none _ { cls := PyExcClass.other "RuntimeError", msg := "boom" } "t9" rfl

/-- C8 counterexample: in the same failing turn the returned state's
`last_response` is still the previous reply and the message log gains only
the user's message — no generic failure message for the user is recorded
anywhere in the state, contrary to the claim. -/
theorem C8_counterexample :
    (graph_process_message
        (some { last_response := "previous reply",
                messages := [("assistant", "previous reply")] })
        "hola" "s1" none (fun _ => Except.error { cls := PyExcClass.other "RuntimeError", msg := "boom" }) "t9").last_response
        = "previous reply" ∧
    (graph_process_message
        (some { last_response := "previous reply",
                messages := [("assistant", "previous reply")] })
        "hola" "s1" none (fun _ => Except.error { cls := PyExcClass.other "RuntimeError", msg := "boom" }) "t9").messages
        = [("assistant", "previous reply"), ("user", "hola")] ∧
    (graph_process_message
        (some { last_response := "previous reply",
                messages := [("assistant", "previous reply")] })
        "hola" "s1" none (fun _ => Except.error { cls := PyExcClass.other "RuntimeError", msg := "boom" }) "t9").error
        = some "boom" := by
  exact ⟨rfl, rfl, rfl⟩

/-! ### C10: consent detection is a substring test -/

/-- C10. The legal handlers record consent by a bare substring test on the
lowercased message: whenever any word of the affirmative keyword list
occurs anywhere inside the message — also inside a longer word — and
consent was not already obtained, `consentimiento` is set to `True`. In
particular the message "necesito más información", which does not express
consent, passes the MVP `check_consent` test and makes the legal agent
record consent (the keyword "si" occurs inside "necesito"). -/
theorem C10_consent_substring_detection :
    (∀ (input : String) (data : Dict) (now : String) (w : String),
        w ∈ consent_words →
        strContains (pyLower input) w = true →
        (dictGetD data "consentimiento" == PyVal.vBool true) = false →
        dictGet (legal_process_message input data false now).user_data
            "consentimiento" = some (PyVal.vBool true)) ∧
    check_consent "necesito más información" = true ∧
    dictGet (legal_process_message "necesito más información" [] false
        "t0").user_data "consentimiento" = some (PyVal.vBool true) := by
  refine ⟨?_, by decide, by decide⟩
  intro input data now w hw hsub hc
  have hany : (consent_words.any fun w' => strContains (pyLower input) w') = true :=
    List.any_eq_true.mpr ⟨w, hw, hsub⟩
  unfold legal_process_message
  simp only [hc, Bool.or_false, Bool.not_false, hany, Bool.and_self, if_true]
  exact (dictGet_dictSet_ne _ _ _ _ (by decide)).trans
    (dictGet_dictSet_self data "consentimiento" (PyVal.vBool true))

/-! ### C1: first-write-wins per field -/

/-- C1 (corrected, amended part). The per-agent merge into the lead-data
mapping (`collector`/`location`/`preferences` loop) is first-write-wins: a
key whose current value is truthy is never overwritten, and an unset key
takes the first truthy value and keeps it against a later one. But
`LeadData.update_from_dict` is last-write-wins: any non-`None` incoming
value overwrites the field (shown here for `nombre`), so the first-write
guarantee does not extend to it. -/
theorem C1_first_write_amended :
    (∀ (d : Dict) (k : String) (v : PyVal),
        truthyGet d k = true → merge_extracted d [(k, v)] = d) ∧
    (∀ (d : Dict) (k : String) (v1 v2 : PyVal),
        truthyGet d k = false → v1.truthy = true →
        dictGetD (merge_extracted (merge_extracted d [(k, v1)]) [(k, v2)]) k
          = v1) ∧
    (∀ (l : LeadData) (s now : String),
        (update_from_dict l [("nombre", PyVal.vStr s)] now).map (·.nombre) =
          Except.ok (some s)) := by
  refine ⟨?_, ?_, ?_⟩
  · intro d k v h
    have hg : (dictGetD d k).truthy = true := h
    have hcont : dictContains d k = true := by
      unfold truthyGet dictGetD dictGet at h
      unfold dictContains
      rcases hf : d.find? (fun p => p.1 == k) with _ | x
      · rw [hf] at h
        simp [PyVal.truthy] at h
      · rw [hf]
        rfl
    unfold merge_extracted
    simp only [List.foldl]
    simp [hcont, hg]
  · intro d k v1 v2 h1 h2
    have hnt : (dictGetD d k).truthy = false := h1
    unfold merge_extracted
    simp only [List.foldl]
    have hc1 : (v1.truthy &&
        (!dictContains d k || !(dictGetD d k).truthy)) = true := by
      simp [h2, hnt]
    rw [hc1]
    simp only [if_true]
    have hget1 : dictGet (dictSet d k v1) k = some v1 :=
      dictGet_dictSet_self d k v1
    have hgd1 : dictGetD (dictSet d k v1) k = v1 := by
      unfold dictGetD
      rw [hget1]
      rfl
    have hcont1 : dictContains (dictSet d k v1) k = true := by
      unfold dictGet at hget1
      unfold dictContains
      rcases hf : (dictSet d k v1).find? (fun p => p.1 == k) with _ | x
      · rw [hf] at hget1
        simp at hget1
      · rw [hf]
        rfl
    simp [hcont1, hgd1, h2]
  · intro l s now
    have h1 : update_from_dict l [("nombre", PyVal.vStr s)] now =
        Except.ok (update_estado
          (check_presupuesto_range { l with nombre := some s }) now) := rfl
    rw [h1]
    obtain ⟨mn, mx, hc⟩ := check_pr_shape { l with nombre := some s }
    obtain ⟨e, md, hu⟩ :=
      update_estado_shape (check_presupuesto_range { l with nombre := some s }) now
    rw [Except.map, hu, hc]

/-- C1 counterexample: a lead record whose `nombre` is already set to
`"Ana"` has it overwritten to `"Bea"` by
`update_from_dict({"nombre": "Bea"})`, contradicting the claim that a set
field is left unchanged. -/
theorem C1_counterexample :
    (update_from_dict { nombre := some "Ana" } [("nombre", PyVal.vStr "Bea")]
        "t1").map (·.nombre) = Except.ok (some "Bea") := rfl

/-! ### C4: missing-field tier selection -/

/-- The priority tier each tracked lead field belongs to (10 mandatory,
9 important, 8 enrichment, 7 optional); 0 for a string that is not a
tracked field. -/
def fieldTier (f : String) : Int :=
  if f ∈ (["nombre", "tipo_inmueble", "consentimiento"] : List String) then 10
  else if f ∈ (["celular", "email", "distrito", "metraje"] : List String) then 9
  else if f ∈ (["habitaciones", "presupuesto_min", "presupuesto_max"] : List String) then 8
  else if f ∈ (["tipo_documento", "numero_documento", "timeline_compra"] : List String) then 7
  else 0

/-- Whether the named field of a lead record is `None`. -/
def fieldUnset (l : LeadData) (f : String) : Bool :=
  if f = "nombre" then l.nombre.isNone
  else if f = "tipo_inmueble" then l.tipo_inmueble.isNone
  else if f = "consentimiento" then l.consentimiento.isNone
  else if f = "celular" then l.celular.isNone
  else if f = "email" then l.email.isNone
  else if f = "distrito" then l.distrito.isNone
  else if f = "metraje" then l.metraje.isNone
  else if f = "habitaciones" then l.habitaciones.isNone
  else if f = "presupuesto_min" then l.presupuesto_min.isNone
  else if f = "presupuesto_max" then l.presupuesto_max.isNone
  else if f = "tipo_documento" then l.tipo_documento.isNone
  else if f = "numero_documento" then l.numero_documento.isNone
  else if f = "timeline_compra" then l.timeline_compra.isNone
  else false

theorem mem_ite_sing {c : Prop} [Decidable c] (f a : String) :
    (f ∈ (if c then [a] else ([] : List String))) ↔ (c ∧ f = a) := by
  split <;> simp_all

theorem mem_ite_list {c : Prop} [Decidable c] (f : String) (L : List String) :
    (f ∈ (if c then L else ([] : List String))) ↔ (c ∧ f ∈ L) := by
  split <;> simp_all

/-- C4 (corrected, amended part). `get_missing_fields(t)` selects the unset
fields of every tier whose number is at most `t` (not at least `t`): a
field name occurs in the result exactly when it is a tracked field, its
tier number is `≤ t`, and it is currently `None`. `celular` and `email`
are reported individually, with no merged "contact" requirement. -/
theorem C4_missing_fields_amended :
    ∀ (l : LeadData) (t : Int) (f : String),
      f ∈ get_missing_fields l t ↔
        (7 ≤ fieldTier f ∧ fieldTier f ≤ t ∧ fieldUnset l f = true) := by
  intro l t f
  by_cases h1 : f = "nombre"
  · subst h1
    simp [get_missing_fields, mem_ite_list, mem_ite_sing, p10_missing,
      p9_missing, p8_missing, p7_missing, fieldTier, fieldUnset,
      Option.isNone_iff_eq_none, ge_iff_le, and_comm]
  by_cases h2 : f = "tipo_inmueble"
  · subst h2
    simp [get_missing_fields, mem_ite_list, mem_ite_sing, p10_missing,
      p9_missing, p8_missing, p7_missing, fieldTier, fieldUnset,
      Option.isNone_iff_eq_none, ge_iff_le, and_comm]
  by_cases h3 : f = "consentimiento"
  · subst h3
    simp [get_missing_fields, mem_ite_list, mem_ite_sing, p10_missing,
      p9_missing, p8_missing, p7_missing, fieldTier, fieldUnset,
      Option.isNone_iff_eq_none, ge_iff_le, and_comm]
  by_cases h4 : f = "celular"
  · subst h4
    simp [get_missing_fields, mem_ite_list, mem_ite_sing, p10_missing,
      p9_missing, p8_missing, p7_missing, fieldTier, fieldUnset,
      Option.isNone_iff_eq_none, ge_iff_le, and_comm]
  by_cases h5 : f = "email"
  · subst h5
    simp [get_missing_fields, mem_ite_list, mem_ite_sing, p10_missing,
      p9_missing, p8_missing, p7_missing, fieldTier, fieldUnset,
      Option.isNone_iff_eq_none, ge_iff_le, and_comm]
  by_cases h6 : f = "distrito"
  · subst h6
    simp [get_missing_fields, mem_ite_list, mem_ite_sing, p10_missing,
      p9_missing, p8_missing, p7_missing, fieldTier, fieldUnset,
      Option.isNone_iff_eq_none, ge_iff_le, and_comm]
  by_cases h7 : f = "metraje"
  · subst h7
    simp [get_missing_fields, mem_ite_list, mem_ite_sing, p10_missing,
      p9_missing, p8_missing, p7_missing, fieldTier, fieldUnset,
      Option.isNone_iff_eq_none, ge_iff_le, and_comm]
  by_cases h8 : f = "habitaciones"
  · subst h8
    simp [get_missing_fields, mem_ite_list, mem_ite_sing, p10_missing,
      p9_missing, p8_missing, p7_missing, fieldTier, fieldUnset,
      Option.isNone_iff_eq_none, ge_iff_le, and_comm]
  by_cases h9 : f = "presupuesto_min"
  · subst h9
    simp [get_missing_fields, mem_ite_list, mem_ite_sing, p10_missing,
      p9_missing, p8_missing, p7_missing, fieldTier, fieldUnset,
      Option.isNone_iff_eq_none, ge_iff_le, and_comm]
  by_cases h10 : f = "presupuesto_max"
  · subst h10
    simp [get_missing_fields, mem_ite_list, mem_ite_sing, p10_missing,
      p9_missing, p8_missing, p7_missing, fieldTier, fieldUnset,
      Option.isNone_iff_eq_none, ge_iff_le, and_comm]
  by_cases h11 : f = "tipo_documento"
  · subst h11
    simp [get_missing_fields, mem_ite_list, mem_ite_sing, p10_missing,
      p9_missing, p8_missing, p7_missing, fieldTier, fieldUnset,
      Option.isNone_iff_eq_none, ge_iff_le, and_comm]
  by_cases h12 : f = "numero_documento"
  · subst h12
    simp [get_missing_fields, mem_ite_list, mem_ite_sing, p10_missing,
      p9_missing, p8_missing, p7_missing, fieldTier, fieldUnset,
      Option.isNone_iff_eq_none, ge_iff_le, and_comm]
  by_cases h13 : f = "timeline_compra"
  · subst h13
    simp [get_missing_fields, mem_ite_list, mem_ite_sing, p10_missing,
      p9_missing, p8_missing, p7_missing, fieldTier, fieldUnset,
      Option.isNone_iff_eq_none, ge_iff_le, and_comm]
  simp [get_missing_fields, mem_ite_list, mem_ite_sing, p10_missing,
    p9_missing, p8_missing, p7_missing, fieldTier, fieldUnset,
    h1, h2, h3, h4, h5, h6, h7, h8, h9, h10, h11, h12, h13]

/-- C4 counterexample: on an empty lead record, `get_missing_fields(10)`
returns every tracked field of every tier (not only the Tier-10 fields),
listing `celular` and `email` separately; and `get_missing_fields(8)`
returns only the Tier-8 and Tier-7 fields, omitting the Tier-10 and
Tier-9 names the claim requires. -/
theorem C4_counterexample :
    get_missing_fields (LeadData.init "t0") 10 =
      ["nombre", "tipo_inmueble", "consentimiento", "celular", "email",
       "distrito", "metraje", "habitaciones", "presupuesto_min",
       "presupuesto_max", "tipo_documento", "numero_documento",
       "timeline_compra"] ∧
    get_missing_fields (LeadData.init "t0") 8 =
      ["habitaciones", "presupuesto_min", "presupuesto_max",
       "tipo_documento", "numero_documento", "timeline_compra"] := by
  constructor <;> rfl

/-! ### C7: budget ordering invariant -/

/-- The budget ordering invariant of a lead record. -/
def budgetOrdered (l : LeadData) : Prop :=
  ∀ a b : Rat, l.presupuesto_min = some a → l.presupuesto_max = some b → a ≤ b

theorem check_pr_budget (l : LeadData) (a b : Rat)
    (hmin : (check_presupuesto_range l).presupuesto_min = some a)
    (hmax : (check_presupuesto_range l).presupuesto_max = some b) :
    a ≤ b := by
  unfold check_presupuesto_range at hmin hmax
  rcases hm : l.presupuesto_min with _ | x
  · rw [hm] at hmin hmax
    rcases hx : l.presupuesto_max with _ | y
    · rw [hx] at hmin hmax
      dsimp at hmin
      rw [hm] at hmin
      exact absurd hmin (by simp)
    · rw [hx] at hmin hmax
      dsimp at hmin
      rw [hm] at hmin
      exact absurd hmin (by simp)
  · rw [hm] at hmin hmax
    rcases hx : l.presupuesto_max with _ | y
    · rw [hx] at hmin hmax
      dsimp at hmax
      rw [hx] at hmax
      exact absurd hmax (by simp)
    · rw [hx] at hmin hmax
      dsimp at hmin hmax
      by_cases hxy : x > y
      · rw [if_pos hxy] at hmin hmax
        dsimp at hmin hmax
        injection hmin with h1
        injection hmax with h2
        subst h1
        subst h2
        exact le_of_lt hxy
      · rw [if_neg hxy] at hmin hmax
        rw [hm] at hmin
        rw [hx] at hmax
        injection hmin with h1
        injection hmax with h2
        subst h1
        subst h2
        exact le_of_not_lt hxy

theorem fromDict_shape (d : Dict) (now : String) (l : LeadData)
    (h : fromDict d now = Except.ok l) :
    ∃ r, l = check_presupuesto_range r := by
  unfold fromDict at h
  repeat (rw [except_bind_ok] at h; obtain ⟨_, -, h⟩ := h)
  injection h with h
  exact ⟨_, h.symm⟩

theorem setField_shape (l : LeadData) (k : String) (v : PyVal) (now : String)
    (l' : LeadData) (h : setField l k v now = Except.ok l') :
    ∃ r, l' = check_presupuesto_range r := by
  unfold setField at h
  rw [except_map_ok] at h
  obtain ⟨a, -, ha⟩ := h
  exact ⟨a, ha.symm⟩

/-- C7. After pydantic construction (`fromDict`, i.e. `LeadData(**d)`) and
after every validated field assignment (`setField`, i.e.
`setattr` under `validate_assignment`), a lead record with both budgets
set satisfies `presupuesto_min ≤ presupuesto_max`; and when the incoming
pair has `min > max`, the model validator stores the two values swapped
rather than rejecting or keeping them reversed. -/
theorem C7_budget_invariant :
    (∀ l : LeadData, budgetOrdered (check_presupuesto_range l)) ∧
    (∀ (d : Dict) (now : String) (l : LeadData),
        fromDict d now = Except.ok l → budgetOrdered l) ∧
    (∀ (l : LeadData) (k : String) (v : PyVal) (now : String) (l' : LeadData),
        setField l k v now = Except.ok l' → budgetOrdered l') ∧
    (∀ (l : LeadData) (a b : Rat),
        l.presupuesto_min = some a → l.presupuesto_max = some b → b < a →
        (check_presupuesto_range l).presupuesto_min = some b ∧
        (check_presupuesto_range l).presupuesto_max = some a) := by
  refine ⟨?_, ?_, ?_, ?_⟩
  · intro l a b hmin hmax
    exact check_pr_budget l a b hmin hmax
  · intro d now l h
    obtain ⟨r, hr⟩ := fromDict_shape d now l h
    subst hr
    intro a b hmin hmax
    exact check_pr_budget r a b hmin hmax
  · intro l k v now l' h
    obtain ⟨r, hr⟩ := setField_shape l k v now l' h
    subst hr
    intro a b hmin hmax
    exact check_pr_budget r a b hmin hmax
  · intro l a b hmin hmax hba
    unfold check_presupuesto_range
    rw [hmin, hmax]
    dsimp
    rw [if_pos hba]
    exact ⟨rfl, rfl⟩

/-! ### C3: status recomputation -/

/-- Modelled from the spec's four-step status algorithm (§4.1): Tier-10
field missing → `ConversacionIniciada`; else fewer than 2 of the 4 Tier-9
fields → `PreLead`; else fewer than 2 of the 3 Tier-8 fields → `Lead`;
else `LeadEnriquecido`. -/
def estado_spec (l : LeadData) : String :=
  if l.nombre.isSome = false ∨ l.tipo_inmueble.isSome = false ∨
      l.consentimiento.isSome = false then "ConversacionIniciada"
  else if p9_completed l < 2 then "PreLead"
  else if p8_completed l < 2 then "Lead"
  else "LeadEnriquecido"

/-- The field-presence pattern of the ten fields `update_estado` inspects. -/
def presence (l : LeadData) : List Bool :=
  [l.nombre.isSome, l.tipo_inmueble.isSome, l.consentimiento.isSome,
   l.celular.isSome, l.email.isSome, l.distrito.isSome, l.metraje.isSome,
   l.habitaciones.isSome, l.presupuesto_min.isSome, l.presupuesto_max.isSome]

theorem update_estado_estado (l : LeadData) (now : String) :
    (update_estado l now).estado =
      (if p10_missing l ≠ [] then "ConversacionIniciada"
       else if p10_missing l = [] ∧ p9_completed l < 2 then "PreLead"
       else if 2 ≤ p9_completed l ∧ p8_completed l < 2 then "Lead"
       else "LeadEnriquecido") := by
  unfold update_estado
  rcases hm : l.metadata with _ | m <;> simp [hm]

theorem p10_missing_iff (l : LeadData) :
    (p10_missing l ≠ []) ↔
      (l.nombre.isSome = false ∨ l.tipo_inmueble.isSome = false ∨
       l.consentimiento.isSome = false) := by
  unfold p10_missing
  rcases hn : l.nombre with _ | x <;> rcases ht : l.tipo_inmueble with _ | y <;>
    rcases hc : l.consentimiento with _ | z <;> simp

theorem update_estado_eq_estado_spec (l : LeadData) (now : String) :
    (update_estado l now).estado = estado_spec l := by
  rw [update_estado_estado]
  unfold estado_spec
  by_cases h10 : p10_missing l ≠ []
  · rw [if_pos h10, if_pos ((p10_missing_iff l).mp h10)]
  · have hnil : p10_missing l = [] := not_not.mp h10
    have hspec : ¬ (l.nombre.isSome = false ∨ l.tipo_inmueble.isSome = false ∨
        l.consentimiento.isSome = false) :=
      fun hd => h10 ((p10_missing_iff l).mpr hd)
    rw [if_neg h10, if_neg hspec]
    by_cases h9 : p9_completed l < 2
    · rw [if_pos ⟨hnil, h9⟩, if_pos h9]
    · rw [if_neg (fun hc => h9 hc.2), if_neg h9]
      by_cases h8 : p8_completed l < 2
      · rw [if_pos ⟨Nat.le_of_not_lt h9, h8⟩, if_pos h8]
      · rw [if_neg (fun hc => h8 hc.2), if_neg h8]

/-- C3. `update_estado` implements exactly the spec's four-step cascade
(`estado_spec`), and the resulting status is a pure function of the
field-presence pattern: two records with identical presence across the
three tiers get identical `estado` on recomputation, whatever the
timestamps. -/
theorem C3_estado_recomputation :
    (∀ (l : LeadData) (now : String),
        (update_estado l now).estado = estado_spec l) ∧
    (∀ (l1 l2 : LeadData) (now1 now2 : String), presence l1 = presence l2 →
        (update_estado l1 now1).estado = (update_estado l2 now2).estado) := by
  have key := update_estado_eq_estado_spec
  refine ⟨key, ?_⟩
  intro l1 l2 now1 now2 h
  rw [key, key]
  unfold presence at h
  simp only [List.cons.injEq, and_true] at h
  obtain ⟨e1, e2, e3, e4, e5, e6, e7, e8, e9, e10⟩ := h
  unfold estado_spec p9_completed p8_completed
  rw [e1, e2, e3, e4, e5, e6, e7, e8, e9, e10]

/-- C3 witness companion: the spec cascade evaluated on a concrete record
(kept as a sanity example; `decide` exercises the executable embedding). -/
theorem C3_concrete_example :
    (update_estado
        { nombre := some "Juan", tipo_inmueble := some "departamento",
          consentimiento := some true, celular := some "987654321",
          distrito := some "Miraflores", metraje := some 80 } "t1").estado
      = "Lead" := by decide

/-! ### C2: deterministic routing cascade -/

/-- Modelled from the spec's routing priority cascade (§4.2, C2): the nine
steps exactly as the claim lists them — pending target, farewell+consent,
no consent, identity/contact, location/property-type, preferences
enrichment, enriched END, keyword fallbacks, consent-dependent default. -/
def route_cascade_spec (s : AgentState) : String :=
  if pendingNext s then (s.next.getD "")
  else
    let message := pyLower s.current_message
    if farewell_words.any (fun w => strContains message w) &&
        truthyGet s.lead_data "consentimiento" then "END"
    else if !truthyGet s.lead_data "consentimiento" then "legal"
    else if !truthyGet s.lead_data "nombre" ||
        !(truthyGet s.lead_data "celular" || truthyGet s.lead_data "email") then
      "collector"
    else if !truthyGet s.lead_data "distrito" ||
        !truthyGet s.lead_data "tipo_inmueble" then "location"
    else if truthyGet s.lead_data "tipo_inmueble" &&
        (!truthyGet s.lead_data "presupuesto_max" ||
         !truthyGet s.lead_data "habitaciones") then "preferences"
    else if (match s.lead_obj with
             | some lo => lo.estado == "LeadEnriquecido"
             | none => false) then "END"
    else if budget_words.any (fun w => strContains message w) then "preferences"
    else if location_words.any (fun w => strContains message w) then "location"
    else if contact_words.any (fun w => strContains message w) then "collector"
    else if truthyGet s.lead_data "consentimiento" then "preferences"
    else "legal"

/-- C2. The deterministic fallback `decide_next_agent` is exactly the
spec's priority cascade (`route_cascade_spec`), first match wins; and in
particular, on a state with no pending routing target, missing consent
always routes to `legal`, regardless of every other field and of the
message text. -/
theorem C2_routing_cascade :
    (∀ s : AgentState, decide_next_agent s = route_cascade_spec s) ∧
    (∀ s : AgentState, pendingNext s = false →
        truthyGet s.lead_data "consentimiento" = false →
        decide_next_agent s = "legal") := by
  constructor
  · intro s
    unfold decide_next_agent route_cascade_spec
    by_cases hc : truthyGet s.lead_data "consentimiento" <;> simp [hc]
  · intro s h1 h2
    unfold decide_next_agent
    simp [h1, h2]

/-! ### C6: consent timestamp -/

theorem setFieldRaw_metadata (l : LeadData) (k : String) (v : PyVal)
    (now : String) (l2 : LeadData) (hk : ¬ (k = "metadata"))
    (h : setFieldRaw l k v now = Except.ok l2) : l2.metadata = l.metadata := by
  unfold setFieldRaw at h
  by_cases h1 : k = "nombre"
  · rw [if_pos h1] at h
    rw [except_map_ok] at h
    obtain ⟨a, -, ha⟩ := h
    subst ha
    rfl
  rw [if_neg h1] at h
  by_cases h2 : k = "tipo_inmueble"
  · rw [if_pos h2] at h
    rw [except_map_ok] at h
    obtain ⟨a, -, ha⟩ := h
    subst ha
    rfl
  rw [if_neg h2] at h
  by_cases h3 : k = "consentimiento"
  · rw [if_pos h3] at h
    rw [except_map_ok] at h
    obtain ⟨a, -, ha⟩ := h
    subst ha
    rfl
  rw [if_neg h3] at h
  by_cases h4 : k = "celular"
  · rw [if_pos h4] at h
    rw [except_map_ok] at h
    obtain ⟨a, -, ha⟩ := h
    subst ha
    rfl
  rw [if_neg h4] at h
  by_cases h5 : k = "email"
  · rw [if_pos h5] at h
    rw [except_map_ok] at h
    obtain ⟨a, -, ha⟩ := h
    subst ha
    rfl
  rw [if_neg h5] at h
  by_cases h6 : k = "distrito"
  · rw [if_pos h6] at h
    rw [except_map_ok] at h
    obtain ⟨a, -, ha⟩ := h
    subst ha
    rfl
  rw [if_neg h6] at h
  by_cases h7 : k = "zona"
  · rw [if_pos h7] at h
    rw [except_map_ok] at h
    obtain ⟨a, -, ha⟩ := h
    subst ha
    rfl
  rw [if_neg h7] at h
  by_cases h8 : k = "metraje"
  · rw [if_pos h8] at h
    rw [except_map_ok] at h
    obtain ⟨a, -, ha⟩ := h
    subst ha
    rfl
  rw [if_neg h8] at h
  by_cases h9 : k = "habitaciones"
  · rw [if_pos h9] at h
    rw [except_map_ok] at h
    obtain ⟨a, -, ha⟩ := h
    subst ha
    rfl
  rw [if_neg h9] at h
  by_cases h10 : k = "presupuesto_min"
  · rw [if_pos h10] at h
    rw [except_map_ok] at h
    obtain ⟨a, -, ha⟩ := h
    subst ha
    rfl
  rw [if_neg h10] at h
  by_cases h11 : k = "presupuesto_max"
  · rw [if_pos h11] at h
    rw [except_map_ok] at h
    obtain ⟨a, -, ha⟩ := h
    subst ha
    rfl
  rw [if_neg h11] at h
  by_cases h12 : k = "tipo_documento"
  · rw [if_pos h12] at h
    rw [except_map_ok] at h
    obtain ⟨a, -, ha⟩ := h
    subst ha
    rfl
  rw [if_neg h12] at h
  by_cases h13 : k = "numero_documento"
  · rw [if_pos h13] at h
    rw [except_map_ok] at h
    obtain ⟨a, -, ha⟩ := h
    subst ha
    rfl
  rw [if_neg h13] at h
  by_cases h14 : k = "timeline_compra"
  · rw [if_pos h14] at h
    rw [except_map_ok] at h
    obtain ⟨a, -, ha⟩ := h
    subst ha
    rfl
  rw [if_neg h14] at h
  by_cases h15 : k = "estado"
  · rw [if_pos h15] at h
    rcases v with _ | s | b | n | q | dd <;>
      first
      | exact Except.noConfusion h
      | (injection h with h
         subst h
         rfl)
  rw [if_neg h15] at h
  by_cases h16 : k = "metadata"
  · exact absurd h16 hk
  rw [if_neg h16] at h
  exact Except.noConfusion h

theorem setField_metadata (l : LeadData) (k : String) (v : PyVal)
    (now : String) (l2 : LeadData) (hk : ¬ (k = "metadata"))
    (h : setField l k v now = Except.ok l2) : l2.metadata = l.metadata := by
  unfold setField at h
  rw [except_map_ok] at h
  obtain ⟨r, hr, hcheck⟩ := h
  obtain ⟨mn, mx, hshape⟩ := check_pr_shape r
  rw [← hcheck, hshape]
  exact setFieldRaw_metadata l k v now r hk hr

theorem applyEntries_metadata (d : Dict) :
    ∀ (l : LeadData) (now : String) (l2 : LeadData),
      "metadata" ∉ d.map Prod.fst →
      applyEntries l now d = Except.ok l2 → l2.metadata = l.metadata := by
  induction d with
  | nil =>
      intro l now l2 _ h
      injection h with h
      subst h
      rfl
  | cons p rest ih =>
      intro l now l2 hmem h
      obtain ⟨k, v⟩ := p
      have hk : ¬ (k = "metadata") := by
        intro he
        exact hmem (by simp [he])
      have hmem' : "metadata" ∉ rest.map Prod.fst := by
        intro hm
        exact hmem (by simp [hm])
      simp only [applyEntries] at h
      by_cases hcond : (v ≠ PyVal.vNone ∧ k ∈ leadFieldNames)
      · rw [if_pos hcond] at h
        rcases hsf : setField l k v now with e | l1
        · rw [hsf] at h
          exact Except.noConfusion h
        · rw [hsf] at h
          have hmeta : l1.metadata = l.metadata :=
            setField_metadata l k v now l1 hk hsf
          rw [ih l1 now l2 hmem' h, hmeta]
      · rw [if_neg hcond] at h
        exact ih l now l2 hmem' h

theorem update_from_dict_meta_fc (l : LeadData) (d : Dict) (now : String)
    (l2 : LeadData) (hmem : "metadata" ∉ d.map Prod.fst)
    (h : update_from_dict l d now = Except.ok l2) :
    l2.metadata.map (·.fecha_consentimiento) =
      l.metadata.map (·.fecha_consentimiento) := by
  unfold update_from_dict at h
  rw [except_map_ok] at h
  obtain ⟨l1, h1, h2⟩ := h
  have hm : l1.metadata = l.metadata := applyEntries_metadata d l now l1 hmem h1
  subst h2
  unfold update_estado
  rcases hm1 : l1.metadata with _ | m
  · simp only [hm1]
    rw [← hm, hm1]
  · simp only [hm1]
    rw [← hm, hm1]
    rfl

/-- Dict-level consent stamping of the legal handler: on the transition
(consent not yet obtained, affirmative keyword present) the mapping gains
`consentimiento = True` and `fecha_consentimiento = now`; on every other
input the mapping is returned unchanged, so the key is written at no other
time. -/
theorem legal_stamps_mapping_exactly_on_transition :
    (∀ (input : String) (data : Dict) (cobt : Bool) (now : String),
        (cobt || (dictGetD data "consentimiento" == PyVal.vBool true)) = false →
        (consent_words.any fun w => strContains (pyLower input) w) = true →
        dictGet (legal_process_message input data cobt now).user_data
            "fecha_consentimiento" = some (PyVal.vStr now) ∧
        dictGet (legal_process_message input data cobt now).user_data
            "consentimiento" = some (PyVal.vBool true)) ∧
    (∀ (input : String) (data : Dict) (cobt : Bool) (now : String),
        ((cobt || (dictGetD data "consentimiento" == PyVal.vBool true)) = true ∨
         (consent_words.any fun w => strContains (pyLower input) w) = false) →
        (legal_process_message input data cobt now).user_data = data) := by
  constructor
  · intro input data cobt now h1 h2
    unfold legal_process_message
    simp only [h1, h2, Bool.not_false, Bool.and_self, if_true]
    constructor
    · exact dictGet_dictSet_self _ _ _
    · exact (dictGet_dictSet_ne _ _ _ _ (by decide)).trans
        (dictGet_dictSet_self data "consentimiento" (PyVal.vBool true))
  · intro input data cobt now h
    unfold legal_process_message
    rcases h with h | h
    · simp [h]
    · simp [h]

/-- C6 (code bug). On the failing input — fresh lead record, empty mapping,
message "acepto" — the legal handler records the consent transition: the
mapping gains `consentimiento = True` and `fecha_consentimiento = "t1"`,
and the lead record's `consentimiento` becomes `True`; but the record's
`metadata.fecha_consentimiento` stays `None`, because `update_from_dict`
silently drops the `fecha_consentimiento` key (it is not a `LeadData`
attribute), so the declared metadata timestamp field is never populated. -/
theorem C6_consent_timestamp_bug :
    (legal_process_node "acepto" [] (some (LeadData.init "t0")) false
        "t1").map
      (fun r => (dictGet r.1 "consentimiento",
                 dictGet r.1 "fecha_consentimiento",
                 r.2.1.consentimiento,
                 r.2.1.metadata.map (·.fecha_consentimiento)))
      = Except.ok (some (PyVal.vBool true), some (PyVal.vStr "t1"),
                   some true, some none) := rfl

/-! ### C9: serialization round trip -/

theorem dictGet_nil (f : String) : dictGet [] f = none := rfl

theorem dictGet_cons_eq (k : String) (v : PyVal) (rest : Dict) :
    dictGet ((k, v) :: rest) k = some v := by
  simp [dictGet, List.find?]

theorem dictGet_cons_ne (k : String) (v : PyVal) (rest : Dict) (f : String)
    (h : ¬ (f = k)) : dictGet ((k, v) :: rest) f = dictGet rest f := by
  have hb : ((k : String) == f) = false := by
    simp only [beq_eq_false_iff_ne, ne_eq]
    exact fun hc => h hc.symm
  simp [dictGet, List.find?, hb]

theorem dictGet_optEntry_ne (k : String) (v : Option PyVal) (rest : Dict)
    (f : String) (h : ¬ (f = k)) :
    dictGet (optEntry k v ++ rest) f = dictGet rest f := by
  cases v with
  | none => rfl
  | some x => exact dictGet_cons_ne k x rest f h

theorem dictGet_optEntry_eq (k : String) (v : Option PyVal) (rest : Dict) :
    dictGet (optEntry k v ++ rest) k =
      match v with
      | some x => some x
      | none => dictGet rest k := by
  cases v with
  | none => rfl
  | some x => exact dictGet_cons_eq k x rest

theorem dictGet_optEntry_last_ne (k : String) (v : Option PyVal) (f : String)
    (h : ¬ (f = k)) : dictGet (optEntry k v) f = none := by
  cases v with
  | none => rfl
  | some x => exact (dictGet_cons_ne k x [] f h).trans (dictGet_nil f)

theorem dictGet_optEntry_last (k : String) (v : Option PyVal) :
    dictGet (optEntry k v) k = v := by
  cases v with
  | none => rfl
  | some x => exact dictGet_cons_eq k x []

theorem to_dict_get_nombre (l : LeadData) :
    dictGet (to_dict l) "nombre" = l.nombre.map PyVal.vStr := by
  rcases hx : l.nombre with _ | x <;>
    simp [to_dict, List.append_assoc, hx, dictGet_optEntry_ne,
      dictGet_optEntry_eq, dictGet_cons_ne, dictGet_cons_eq, dictGet_nil,
      dictGet_optEntry_last_ne, dictGet_optEntry_last]

theorem to_dict_get_tipo_inmueble (l : LeadData) :
    dictGet (to_dict l) "tipo_inmueble" = l.tipo_inmueble.map PyVal.vStr := by
  rcases hx : l.tipo_inmueble with _ | x <;>
    simp [to_dict, List.append_assoc, hx, dictGet_optEntry_ne,
      dictGet_optEntry_eq, dictGet_cons_ne, dictGet_cons_eq, dictGet_nil,
      dictGet_optEntry_last_ne, dictGet_optEntry_last]

theorem to_dict_get_consentimiento (l : LeadData) :
    dictGet (to_dict l) "consentimiento" = l.consentimiento.map PyVal.vBool := by
  rcases hx : l.consentimiento with _ | x <;>
    simp [to_dict, List.append_assoc, hx, dictGet_optEntry_ne,
      dictGet_optEntry_eq, dictGet_cons_ne, dictGet_cons_eq, dictGet_nil,
      dictGet_optEntry_last_ne, dictGet_optEntry_last]

theorem to_dict_get_celular (l : LeadData) :
    dictGet (to_dict l) "celular" = l.celular.map PyVal.vStr := by
  rcases hx : l.celular with _ | x <;>
    simp [to_dict, List.append_assoc, hx, dictGet_optEntry_ne,
      dictGet_optEntry_eq, dictGet_cons_ne, dictGet_cons_eq, dictGet_nil,
      dictGet_optEntry_last_ne, dictGet_optEntry_last]

theorem to_dict_get_email (l : LeadData) :
    dictGet (to_dict l) "email" = l.email.map PyVal.vStr := by
  rcases hx : l.email with _ | x <;>
    simp [to_dict, List.append_assoc, hx, dictGet_optEntry_ne,
      dictGet_optEntry_eq, dictGet_cons_ne, dictGet_cons_eq, dictGet_nil,
      dictGet_optEntry_last_ne, dictGet_optEntry_last]

theorem to_dict_get_distrito (l : LeadData) :
    dictGet (to_dict l) "distrito" = l.distrito.map PyVal.vStr := by
  rcases hx : l.distrito with _ | x <;>
    simp [to_dict, List.append_assoc, hx, dictGet_optEntry_ne,
      dictGet_optEntry_eq, dictGet_cons_ne, dictGet_cons_eq, dictGet_nil,
      dictGet_optEntry_last_ne, dictGet_optEntry_last]

theorem to_dict_get_zona (l : LeadData) :
    dictGet (to_dict l) "zona" = l.zona.map PyVal.vStr := by
  rcases hx : l.zona with _ | x <;>
    simp [to_dict, List.append_assoc, hx, dictGet_optEntry_ne,
      dictGet_optEntry_eq, dictGet_cons_ne, dictGet_cons_eq, dictGet_nil,
      dictGet_optEntry_last_ne, dictGet_optEntry_last]

theorem to_dict_get_metraje (l : LeadData) :
    dictGet (to_dict l) "metraje" = l.metraje.map PyVal.vInt := by
  rcases hx : l.metraje with _ | x <;>
    simp [to_dict, List.append_assoc, hx, dictGet_optEntry_ne,
      dictGet_optEntry_eq, dictGet_cons_ne, dictGet_cons_eq, dictGet_nil,
      dictGet_optEntry_last_ne, dictGet_optEntry_last]

theorem to_dict_get_habitaciones (l : LeadData) :
    dictGet (to_dict l) "habitaciones" = l.habitaciones.map PyVal.vInt := by
  rcases hx : l.habitaciones with _ | x <;>
    simp [to_dict, List.append_assoc, hx, dictGet_optEntry_ne,
      dictGet_optEntry_eq, dictGet_cons_ne, dictGet_cons_eq, dictGet_nil,
      dictGet_optEntry_last_ne, dictGet_optEntry_last]

theorem to_dict_get_presupuesto_min (l : LeadData) :
    dictGet (to_dict l) "presupuesto_min" = l.presupuesto_min.map PyVal.vRat := by
  rcases hx : l.presupuesto_min with _ | x <;>
    simp [to_dict, List.append_assoc, hx, dictGet_optEntry_ne,
      dictGet_optEntry_eq, dictGet_cons_ne, dictGet_cons_eq, dictGet_nil,
      dictGet_optEntry_last_ne, dictGet_optEntry_last]

theorem to_dict_get_presupuesto_max (l : LeadData) :
    dictGet (to_dict l) "presupuesto_max" = l.presupuesto_max.map PyVal.vRat := by
  rcases hx : l.presupuesto_max with _ | x <;>
    simp [to_dict, List.append_assoc, hx, dictGet_optEntry_ne,
      dictGet_optEntry_eq, dictGet_cons_ne, dictGet_cons_eq, dictGet_nil,
      dictGet_optEntry_last_ne, dictGet_optEntry_last]

theorem to_dict_get_tipo_documento (l : LeadData) :
    dictGet (to_dict l) "tipo_documento" = l.tipo_documento.map PyVal.vStr := by
  rcases hx : l.tipo_documento with _ | x <;>
    simp [to_dict, List.append_assoc, hx, dictGet_optEntry_ne,
      dictGet_optEntry_eq, dictGet_cons_ne, dictGet_cons_eq, dictGet_nil,
      dictGet_optEntry_last_ne, dictGet_optEntry_last]

theorem to_dict_get_numero_documento (l : LeadData) :
    dictGet (to_dict l) "numero_documento" = l.numero_documento.map PyVal.vStr := by
  rcases hx : l.numero_documento with _ | x <;>
    simp [to_dict, List.append_assoc, hx, dictGet_optEntry_ne,
      dictGet_optEntry_eq, dictGet_cons_ne, dictGet_cons_eq, dictGet_nil,
      dictGet_optEntry_last_ne, dictGet_optEntry_last]

theorem to_dict_get_timeline_compra (l : LeadData) :
    dictGet (to_dict l) "timeline_compra" = l.timeline_compra.map PyVal.vStr := by
  rcases hx : l.timeline_compra with _ | x <;>
    simp [to_dict, List.append_assoc, hx, dictGet_optEntry_ne,
      dictGet_optEntry_eq, dictGet_cons_ne, dictGet_cons_eq, dictGet_nil,
      dictGet_optEntry_last_ne, dictGet_optEntry_last]

theorem to_dict_get_estado (l : LeadData) :
    dictGet (to_dict l) "estado" = some (PyVal.vStr l.estado) := by
  simp [to_dict, List.append_assoc, dictGet_optEntry_ne, dictGet_optEntry_eq,
    dictGet_cons_ne, dictGet_cons_eq, dictGet_nil, dictGet_optEntry_last_ne,
    dictGet_optEntry_last]

theorem to_dict_get_metadata (l : LeadData) :
    dictGet (to_dict l) "metadata" =
      l.metadata.map (fun m => PyVal.vDictS (metadataToDict m)) := by
  rcases hx : l.metadata with _ | m <;>
    simp [to_dict, List.append_assoc, hx, dictGet_optEntry_ne,
      dictGet_optEntry_eq, dictGet_cons_ne, dictGet_cons_eq, dictGet_nil,
      dictGet_optEntry_last_ne, dictGet_optEntry_last]

theorem to_dict_get_other (l : LeadData) (f : String)
    (h1 : ¬ f = "nombre") (h2 : ¬ f = "tipo_inmueble")
    (h3 : ¬ f = "consentimiento") (h4 : ¬ f = "celular")
    (h5 : ¬ f = "email") (h6 : ¬ f = "distrito") (h7 : ¬ f = "zona")
    (h8 : ¬ f = "metraje") (h9 : ¬ f = "habitaciones")
    (h10 : ¬ f = "presupuesto_min") (h11 : ¬ f = "presupuesto_max")
    (h12 : ¬ f = "tipo_documento") (h13 : ¬ f = "numero_documento")
    (h14 : ¬ f = "timeline_compra") (h15 : ¬ f = "estado")
    (h16 : ¬ f = "metadata") :
    dictGet (to_dict l) f = none := by
  unfold to_dict
  rw [List.append_assoc, List.append_assoc, List.append_assoc,
    List.append_assoc, List.append_assoc, List.append_assoc,
    List.append_assoc, List.append_assoc, List.append_assoc,
    List.append_assoc, List.append_assoc, List.append_assoc,
    List.append_assoc, List.append_assoc]
  rw [dictGet_optEntry_ne _ _ _ _ h1, dictGet_optEntry_ne _ _ _ _ h2,
    dictGet_optEntry_ne _ _ _ _ h3, dictGet_optEntry_ne _ _ _ _ h4,
    dictGet_optEntry_ne _ _ _ _ h5, dictGet_optEntry_ne _ _ _ _ h6,
    dictGet_optEntry_ne _ _ _ _ h7, dictGet_optEntry_ne _ _ _ _ h8,
    dictGet_optEntry_ne _ _ _ _ h9, dictGet_optEntry_ne _ _ _ _ h10,
    dictGet_optEntry_ne _ _ _ _ h11, dictGet_optEntry_ne _ _ _ _ h12,
    dictGet_optEntry_ne _ _ _ _ h13, dictGet_optEntry_ne _ _ _ _ h14,
    List.singleton_append, dictGet_cons_ne _ _ _ _ h15]
  exact dictGet_optEntry_last_ne _ _ _ h16

/-- Whether the named field is a set ("non-`None`") field of the record and
hence serialized by `model_dump(exclude_none=True)` (`estado` always is). -/
def dumpKeySet (l : LeadData) (f : String) : Bool :=
  if f = "nombre" then l.nombre.isSome
  else if f = "tipo_inmueble" then l.tipo_inmueble.isSome
  else if f = "consentimiento" then l.consentimiento.isSome
  else if f = "celular" then l.celular.isSome
  else if f = "email" then l.email.isSome
  else if f = "distrito" then l.distrito.isSome
  else if f = "zona" then l.zona.isSome
  else if f = "metraje" then l.metraje.isSome
  else if f = "habitaciones" then l.habitaciones.isSome
  else if f = "presupuesto_min" then l.presupuesto_min.isSome
  else if f = "presupuesto_max" then l.presupuesto_max.isSome
  else if f = "tipo_documento" then l.tipo_documento.isSome
  else if f = "numero_documento" then l.numero_documento.isSome
  else if f = "timeline_compra" then l.timeline_compra.isSome
  else if f = "estado" then true
  else if f = "metadata" then l.metadata.isSome
  else false

theorem to_dict_keys (l : LeadData) (f : String) :
    (dictGet (to_dict l) f).isSome = dumpKeySet l f := by
  by_cases h1 : f = "nombre"
  · subst h1
    rw [to_dict_get_nombre]
    simp [dumpKeySet]
  by_cases h2 : f = "tipo_inmueble"
  · subst h2
    rw [to_dict_get_tipo_inmueble]
    simp [dumpKeySet]
  by_cases h3 : f = "consentimiento"
  · subst h3
    rw [to_dict_get_consentimiento]
    simp [dumpKeySet]
  by_cases h4 : f = "celular"
  · subst h4
    rw [to_dict_get_celular]
    simp [dumpKeySet]
  by_cases h5 : f = "email"
  · subst h5
    rw [to_dict_get_email]
    simp [dumpKeySet]
  by_cases h6 : f = "distrito"
  · subst h6
    rw [to_dict_get_distrito]
    simp [dumpKeySet]
  by_cases h7 : f = "zona"
  · subst h7
    rw [to_dict_get_zona]
    simp [dumpKeySet]
  by_cases h8 : f = "metraje"
  · subst h8
    rw [to_dict_get_metraje]
    simp [dumpKeySet]
  by_cases h9 : f = "habitaciones"
  · subst h9
    rw [to_dict_get_habitaciones]
    simp [dumpKeySet]
  by_cases h10 : f = "presupuesto_min"
  · subst h10
    rw [to_dict_get_presupuesto_min]
    simp [dumpKeySet]
  by_cases h11 : f = "presupuesto_max"
  · subst h11
    rw [to_dict_get_presupuesto_max]
    simp [dumpKeySet]
  by_cases h12 : f = "tipo_documento"
  · subst h12
    rw [to_dict_get_tipo_documento]
    simp [dumpKeySet]
  by_cases h13 : f = "numero_documento"
  · subst h13
    rw [to_dict_get_numero_documento]
    simp [dumpKeySet]
  by_cases h14 : f = "timeline_compra"
  · subst h14
    rw [to_dict_get_timeline_compra]
    simp [dumpKeySet]
  by_cases h15 : f = "estado"
  · subst h15
    rw [to_dict_get_estado]
    simp [dumpKeySet]
  by_cases h16 : f = "metadata"
  · subst h16
    rw [to_dict_get_metadata]
    simp [dumpKeySet]
  rw [to_dict_get_other l f h1 h2 h3 h4 h5 h6 h7 h8 h9 h10 h11 h12 h13 h14
    h15 h16]
  simp [dumpKeySet, h1, h2, h3, h4, h5, h6, h7, h8, h9, h10, h11, h12, h13,
    h14, h15, h16]

theorem except_ok_bind {ε α β : Type} (a : α) (f : α → Except ε β) :
    (Except.ok a : Except ε α) >>= f = f a := rfl

theorem getF_to_dict_nombre (l : LeadData) :
    getF (to_dict l) "nombre" convStr = Except.ok l.nombre := by
  rcases hx : l.nombre with _ | x <;>
    simp [getF, to_dict_get_nombre, hx, convStr]

theorem getF_to_dict_tipo_inmueble (l : LeadData) :
    getF (to_dict l) "tipo_inmueble" convStr = Except.ok l.tipo_inmueble := by
  rcases hx : l.tipo_inmueble with _ | x <;>
    simp [getF, to_dict_get_tipo_inmueble, hx, convStr]

theorem getF_to_dict_consentimiento (l : LeadData) :
    getF (to_dict l) "consentimiento" convBool = Except.ok l.consentimiento := by
  rcases hx : l.consentimiento with _ | x <;>
    simp [getF, to_dict_get_consentimiento, hx, convBool]

theorem getF_to_dict_celular (l : LeadData) :
    getF (to_dict l) "celular" convStr = Except.ok l.celular := by
  rcases hx : l.celular with _ | x <;>
    simp [getF, to_dict_get_celular, hx, convStr]

theorem getF_to_dict_email (l : LeadData) :
    getF (to_dict l) "email" convStr = Except.ok l.email := by
  rcases hx : l.email with _ | x <;>
    simp [getF, to_dict_get_email, hx, convStr]

theorem getF_to_dict_distrito (l : LeadData) :
    getF (to_dict l) "distrito" convStr = Except.ok l.distrito := by
  rcases hx : l.distrito with _ | x <;>
    simp [getF, to_dict_get_distrito, hx, convStr]

theorem getF_to_dict_zona (l : LeadData) :
    getF (to_dict l) "zona" convStr = Except.ok l.zona := by
  rcases hx : l.zona with _ | x <;>
    simp [getF, to_dict_get_zona, hx, convStr]

theorem getF_to_dict_metraje (l : LeadData) :
    getF (to_dict l) "metraje" convInt = Except.ok l.metraje := by
  rcases hx : l.metraje with _ | x <;>
    simp [getF, to_dict_get_metraje, hx, convInt]

theorem getF_to_dict_habitaciones (l : LeadData) :
    getF (to_dict l) "habitaciones" convInt = Except.ok l.habitaciones := by
  rcases hx : l.habitaciones with _ | x <;>
    simp [getF, to_dict_get_habitaciones, hx, convInt]

theorem getF_to_dict_presupuesto_min (l : LeadData) :
    getF (to_dict l) "presupuesto_min" convRat = Except.ok l.presupuesto_min := by
  rcases hx : l.presupuesto_min with _ | x <;>
    simp [getF, to_dict_get_presupuesto_min, hx, convRat]

theorem getF_to_dict_presupuesto_max (l : LeadData) :
    getF (to_dict l) "presupuesto_max" convRat = Except.ok l.presupuesto_max := by
  rcases hx : l.presupuesto_max with _ | x <;>
    simp [getF, to_dict_get_presupuesto_max, hx, convRat]

theorem getF_to_dict_tipo_documento (l : LeadData) :
    getF (to_dict l) "tipo_documento" convStr = Except.ok l.tipo_documento := by
  rcases hx : l.tipo_documento with _ | x <;>
    simp [getF, to_dict_get_tipo_documento, hx, convStr]

theorem getF_to_dict_numero_documento (l : LeadData) :
    getF (to_dict l) "numero_documento" convStr = Except.ok l.numero_documento := by
  rcases hx : l.numero_documento with _ | x <;>
    simp [getF, to_dict_get_numero_documento, hx, convStr]

theorem getF_to_dict_timeline_compra (l : LeadData) :
    getF (to_dict l) "timeline_compra" convStr = Except.ok l.timeline_compra := by
  rcases hx : l.timeline_compra with _ | x <;>
    simp [getF, to_dict_get_timeline_compra, hx, convStr]

theorem getEstado_to_dict (l : LeadData) :
    getEstado (to_dict l) = Except.ok l.estado := by
  simp [getEstado, to_dict_get_estado]

/-- The metadata value a rebuilt record carries: re-validated from the
serialized sub-mapping when present, a fresh default otherwise. -/
def rebuildMeta (l : LeadData) (now : String) : Option LeadMetadata :=
  match l.metadata with
  | none => some (LeadMetadata.init now)
  | some m => some (metadataFromDict (metadataToDict m) now)

theorem getMetadata_to_dict (l : LeadData) (now : String) :
    getMetadata (to_dict l) now = Except.ok (rebuildMeta l now) := by
  rcases hm : l.metadata with _ | m <;>
    simp [getMetadata, to_dict_get_metadata, hm, convMetadata, rebuildMeta]

theorem budgetOrdered_of_eq (l1 l0 : LeadData)
    (hmin : l1.presupuesto_min = l0.presupuesto_min)
    (hmax : l1.presupuesto_max = l0.presupuesto_max)
    (h : budgetOrdered l0) : budgetOrdered l1 := by
  intro a b ha hb
  exact h a b (hmin ▸ ha) (hmax ▸ hb)

theorem budgetOrdered_none_min (l : LeadData)
    (h : l.presupuesto_min = none) : budgetOrdered l := by
  intro a b ha _
  rw [h] at ha
  exact Option.noConfusion ha

theorem budgetOrdered_none_max (l : LeadData)
    (h : l.presupuesto_max = none) : budgetOrdered l := by
  intro a b _ hb
  rw [h] at hb
  exact Option.noConfusion hb

theorem check_pr_id (l : LeadData) (h : budgetOrdered l) :
    check_presupuesto_range l = l := by
  unfold check_presupuesto_range
  rcases hm : l.presupuesto_min with _ | a <;>
    rcases hx : l.presupuesto_max with _ | b <;> simp [hm, hx]
  intro hba
  exact absurd hba (not_lt.mpr (h a b hm hx))

theorem fromDict_to_dict (l : LeadData) (now : String)
    (hord : budgetOrdered l) :
    fromDict (to_dict l) now =
      Except.ok { l with metadata := rebuildMeta l now } := by
  have hrec : check_presupuesto_range { l with metadata := rebuildMeta l now }
      = { l with metadata := rebuildMeta l now } :=
    check_pr_id _ (budgetOrdered_of_eq _ l rfl rfl hord)
  unfold fromDict
  rw [getF_to_dict_nombre, except_ok_bind, getF_to_dict_tipo_inmueble,
    except_ok_bind, getF_to_dict_consentimiento, except_ok_bind,
    getF_to_dict_celular, except_ok_bind, getF_to_dict_email, except_ok_bind,
    getF_to_dict_distrito, except_ok_bind, getF_to_dict_zona, except_ok_bind,
    getF_to_dict_metraje, except_ok_bind, getF_to_dict_habitaciones,
    except_ok_bind, getF_to_dict_presupuesto_min, except_ok_bind,
    getF_to_dict_presupuesto_max, except_ok_bind, getF_to_dict_tipo_documento,
    except_ok_bind, getF_to_dict_numero_documento, except_ok_bind,
    getF_to_dict_timeline_compra, except_ok_bind, getEstado_to_dict,
    except_ok_bind, getMetadata_to_dict, except_ok_bind]
  show Except.ok (check_presupuesto_range { l with metadata := rebuildMeta l now })
      = _
  rw [hrec]

theorem applyEntries_append (d1 d2 : Dict) :
    ∀ (l : LeadData) (now : String),
      applyEntries l now (d1 ++ d2) =
        (applyEntries l now d1) >>= fun l1 => applyEntries l1 now d2 := by
  induction d1 with
  | nil =>
      intro l now
      rfl
  | cons p rest ih =>
      intro l now
      obtain ⟨k, v⟩ := p
      simp only [List.cons_append, applyEntries]
      by_cases hcond : (v ≠ PyVal.vNone ∧ k ∈ leadFieldNames)
      · rw [if_pos hcond, if_pos hcond]
        rcases hsf : setField l k v now with e | l1
        · rfl
        · exact ih l1 now
      · rw [if_neg hcond, if_neg hcond]
        exact ih l now

theorem applyEntries_single_ok (l0 : LeadData) (now : String) (k : String)
    (v : PyVal) (l1 : LeadData)
    (hguard : v ≠ PyVal.vNone ∧ k ∈ leadFieldNames)
    (hset : setField l0 k v now = Except.ok l1) :
    applyEntries l0 now [(k, v)] = Except.ok l1 := by
  simp only [applyEntries]
  rw [if_pos hguard, hset]

theorem ok_check_of_ordered (r : LeadData) (h : budgetOrdered r) :
    (Except.ok (check_presupuesto_range r) : Except Unit LeadData) =
      Except.ok r := by
  rw [check_pr_id r h]

theorem chunk_nombre (l0 : LeadData) (o : Option String) (now : String)
    (h0 : l0.nombre = none) (hord : budgetOrdered l0) :
    applyEntries l0 now (optEntry "nombre" (o.map PyVal.vStr)) =
      Except.ok { l0 with nombre := o } := by
  rcases o with _ | s
  · show Except.ok l0 = _
    rw [← h0]
  · have hset : setField l0 "nombre" (PyVal.vStr s) now =
        Except.ok (check_presupuesto_range { l0 with nombre := some s }) := rfl
    show applyEntries l0 now [("nombre", PyVal.vStr s)] = _
    rw [applyEntries_single_ok l0 now _ _ _
      ⟨fun hc => PyVal.noConfusion hc, by decide⟩ hset]
    exact ok_check_of_ordered _ (budgetOrdered_of_eq _ l0 rfl rfl hord)

theorem chunk_tipo_inmueble (l0 : LeadData) (o : Option String) (now : String)
    (h0 : l0.tipo_inmueble = none) (hord : budgetOrdered l0) :
    applyEntries l0 now (optEntry "tipo_inmueble" (o.map PyVal.vStr)) =
      Except.ok { l0 with tipo_inmueble := o } := by
  rcases o with _ | s
  · show Except.ok l0 = _
    rw [← h0]
  · have hset : setField l0 "tipo_inmueble" (PyVal.vStr s) now =
        Except.ok (check_presupuesto_range { l0 with tipo_inmueble := some s }) := rfl
    show applyEntries l0 now [("tipo_inmueble", PyVal.vStr s)] = _
    rw [applyEntries_single_ok l0 now _ _ _
      ⟨fun hc => PyVal.noConfusion hc, by decide⟩ hset]
    exact ok_check_of_ordered _ (budgetOrdered_of_eq _ l0 rfl rfl hord)

theorem chunk_consentimiento (l0 : LeadData) (o : Option Bool) (now : String)
    (h0 : l0.consentimiento = none) (hord : budgetOrdered l0) :
    applyEntries l0 now (optEntry "consentimiento" (o.map PyVal.vBool)) =
      Except.ok { l0 with consentimiento := o } := by
  rcases o with _ | b
  · show Except.ok l0 = _
    rw [← h0]
  · have hset : setField l0 "consentimiento" (PyVal.vBool b) now =
        Except.ok (check_presupuesto_range { l0 with consentimiento := some b }) := rfl
    show applyEntries l0 now [("consentimiento", PyVal.vBool b)] = _
    rw [applyEntries_single_ok l0 now _ _ _
      ⟨fun hc => PyVal.noConfusion hc, by decide⟩ hset]
    exact ok_check_of_ordered _ (budgetOrdered_of_eq _ l0 rfl rfl hord)

theorem chunk_celular (l0 : LeadData) (o : Option String) (now : String)
    (h0 : l0.celular = none) (hord : budgetOrdered l0) :
    applyEntries l0 now (optEntry "celular" (o.map PyVal.vStr)) =
      Except.ok { l0 with celular := o } := by
  rcases o with _ | s
  · show Except.ok l0 = _
    rw [← h0]
  · have hset : setField l0 "celular" (PyVal.vStr s) now =
        Except.ok (check_presupuesto_range { l0 with celular := some s }) := rfl
    show applyEntries l0 now [("celular", PyVal.vStr s)] = _
    rw [applyEntries_single_ok l0 now _ _ _
      ⟨fun hc => PyVal.noConfusion hc, by decide⟩ hset]
    exact ok_check_of_ordered _ (budgetOrdered_of_eq _ l0 rfl rfl hord)

theorem chunk_email (l0 : LeadData) (o : Option String) (now : String)
    (h0 : l0.email = none) (hord : budgetOrdered l0) :
    applyEntries l0 now (optEntry "email" (o.map PyVal.vStr)) =
      Except.ok { l0 with email := o } := by
  rcases o with _ | s
  · show Except.ok l0 = _
    rw [← h0]
  · have hset : setField l0 "email" (PyVal.vStr s) now =
        Except.ok (check_presupuesto_range { l0 with email := some s }) := rfl
    show applyEntries l0 now [("email", PyVal.vStr s)] = _
    rw [applyEntries_single_ok l0 now _ _ _
      ⟨fun hc => PyVal.noConfusion hc, by decide⟩ hset]
    exact ok_check_of_ordered _ (budgetOrdered_of_eq _ l0 rfl rfl hord)

theorem chunk_distrito (l0 : LeadData) (o : Option String) (now : String)
    (h0 : l0.distrito = none) (hord : budgetOrdered l0) :
    applyEntries l0 now (optEntry "distrito" (o.map PyVal.vStr)) =
      Except.ok { l0 with distrito := o } := by
  rcases o with _ | s
  · show Except.ok l0 = _
    rw [← h0]
  · have hset : setField l0 "distrito" (PyVal.vStr s) now =
        Except.ok (check_presupuesto_range { l0 with distrito := some s }) := rfl
    show applyEntries l0 now [("distrito", PyVal.vStr s)] = _
    rw [applyEntries_single_ok l0 now _ _ _
      ⟨fun hc => PyVal.noConfusion hc, by decide⟩ hset]
    exact ok_check_of_ordered _ (budgetOrdered_of_eq _ l0 rfl rfl hord)

theorem chunk_zona (l0 : LeadData) (o : Option String) (now : String)
    (h0 : l0.zona = none) (hord : budgetOrdered l0) :
    applyEntries l0 now (optEntry "zona" (o.map PyVal.vStr)) =
      Except.ok { l0 with zona := o } := by
  rcases o with _ | s
  · show Except.ok l0 = _
    rw [← h0]
  · have hset : setField l0 "zona" (PyVal.vStr s) now =
        Except.ok (check_presupuesto_range { l0 with zona := some s }) := rfl
    show applyEntries l0 now [("zona", PyVal.vStr s)] = _
    rw [applyEntries_single_ok l0 now _ _ _
      ⟨fun hc => PyVal.noConfusion hc, by decide⟩ hset]
    exact ok_check_of_ordered _ (budgetOrdered_of_eq _ l0 rfl rfl hord)

theorem chunk_metraje (l0 : LeadData) (o : Option Int) (now : String)
    (h0 : l0.metraje = none) (hord : budgetOrdered l0) :
    applyEntries l0 now (optEntry "metraje" (o.map PyVal.vInt)) =
      Except.ok { l0 with metraje := o } := by
  rcases o with _ | n
  · show Except.ok l0 = _
    rw [← h0]
  · have hset : setField l0 "metraje" (PyVal.vInt n) now =
        Except.ok (check_presupuesto_range { l0 with metraje := some n }) := rfl
    show applyEntries l0 now [("metraje", PyVal.vInt n)] = _
    rw [applyEntries_single_ok l0 now _ _ _
      ⟨fun hc => PyVal.noConfusion hc, by decide⟩ hset]
    exact ok_check_of_ordered _ (budgetOrdered_of_eq _ l0 rfl rfl hord)

theorem chunk_habitaciones (l0 : LeadData) (o : Option Int) (now : String)
    (h0 : l0.habitaciones = none) (hord : budgetOrdered l0) :
    applyEntries l0 now (optEntry "habitaciones" (o.map PyVal.vInt)) =
      Except.ok { l0 with habitaciones := o } := by
  rcases o with _ | n
  · show Except.ok l0 = _
    rw [← h0]
  · have hset : setField l0 "habitaciones" (PyVal.vInt n) now =
        Except.ok (check_presupuesto_range { l0 with habitaciones := some n }) := rfl
    show applyEntries l0 now [("habitaciones", PyVal.vInt n)] = _
    rw [applyEntries_single_ok l0 now _ _ _
      ⟨fun hc => PyVal.noConfusion hc, by decide⟩ hset]
    exact ok_check_of_ordered _ (budgetOrdered_of_eq _ l0 rfl rfl hord)

theorem chunk_presupuesto_min (l0 : LeadData) (o : Option Rat) (now : String)
    (h0 : l0.presupuesto_min = none) (hmax : l0.presupuesto_max = none) :
    applyEntries l0 now (optEntry "presupuesto_min" (o.map PyVal.vRat)) =
      Except.ok { l0 with presupuesto_min := o } := by
  rcases o with _ | q
  · show Except.ok l0 = _
    rw [← h0]
  · have hset : setField l0 "presupuesto_min" (PyVal.vRat q) now =
        Except.ok (check_presupuesto_range { l0 with presupuesto_min := some q }) := rfl
    show applyEntries l0 now [("presupuesto_min", PyVal.vRat q)] = _
    rw [applyEntries_single_ok l0 now _ _ _
      ⟨fun hc => PyVal.noConfusion hc, by decide⟩ hset]
    exact ok_check_of_ordered _ (budgetOrdered_none_max _ hmax)

theorem chunk_presupuesto_max (l0 : LeadData) (o : Option Rat) (now : String)
    (h0 : l0.presupuesto_max = none)
    (hord2 : ∀ a b : Rat, l0.presupuesto_min = some a → o = some b → a ≤ b) :
    applyEntries l0 now (optEntry "presupuesto_max" (o.map PyVal.vRat)) =
      Except.ok { l0 with presupuesto_max := o } := by
  rcases o with _ | q
  · show Except.ok l0 = _
    rw [← h0]
  · have hset : setField l0 "presupuesto_max" (PyVal.vRat q) now =
        Except.ok (check_presupuesto_range { l0 with presupuesto_max := some q }) := rfl
    have hordnew : budgetOrdered { l0 with presupuesto_max := some q } := by
      intro a b ha hb
      have hb' : q = b := Option.some.inj hb
      exact hb' ▸ (hord2 a q ha rfl)
    show applyEntries l0 now [("presupuesto_max", PyVal.vRat q)] = _
    rw [applyEntries_single_ok l0 now _ _ _
      ⟨fun hc => PyVal.noConfusion hc, by decide⟩ hset]
    exact ok_check_of_ordered _ hordnew

theorem chunk_tipo_documento (l0 : LeadData) (o : Option String) (now : String)
    (h0 : l0.tipo_documento = none) (hord : budgetOrdered l0) :
    applyEntries l0 now (optEntry "tipo_documento" (o.map PyVal.vStr)) =
      Except.ok { l0 with tipo_documento := o } := by
  rcases o with _ | s
  · show Except.ok l0 = _
    rw [← h0]
  · have hset : setField l0 "tipo_documento" (PyVal.vStr s) now =
        Except.ok (check_presupuesto_range { l0 with tipo_documento := some s }) := rfl
    show applyEntries l0 now [("tipo_documento", PyVal.vStr s)] = _
    rw [applyEntries_single_ok l0 now _ _ _
      ⟨fun hc => PyVal.noConfusion hc, by decide⟩ hset]
    exact ok_check_of_ordered _ (budgetOrdered_of_eq _ l0 rfl rfl hord)

theorem chunk_numero_documento (l0 : LeadData) (o : Option String)
    (now : String) (h0 : l0.numero_documento = none)
    (hord : budgetOrdered l0) :
    applyEntries l0 now (optEntry "numero_documento" (o.map PyVal.vStr)) =
      Except.ok { l0 with numero_documento := o } := by
  rcases o with _ | s
  · show Except.ok l0 = _
    rw [← h0]
  · have hset : setField l0 "numero_documento" (PyVal.vStr s) now =
        Except.ok (check_presupuesto_range { l0 with numero_documento := some s }) := rfl
    show applyEntries l0 now [("numero_documento", PyVal.vStr s)] = _
    rw [applyEntries_single_ok l0 now _ _ _
      ⟨fun hc => PyVal.noConfusion hc, by decide⟩ hset]
    exact ok_check_of_ordered _ (budgetOrdered_of_eq _ l0 rfl rfl hord)

theorem chunk_timeline_compra (l0 : LeadData) (o : Option String)
    (now : String) (h0 : l0.timeline_compra = none)
    (hord : budgetOrdered l0) :
    applyEntries l0 now (optEntry "timeline_compra" (o.map PyVal.vStr)) =
      Except.ok { l0 with timeline_compra := o } := by
  rcases o with _ | s
  · show Except.ok l0 = _
    rw [← h0]
  · have hset : setField l0 "timeline_compra" (PyVal.vStr s) now =
        Except.ok (check_presupuesto_range { l0 with timeline_compra := some s }) := rfl
    show applyEntries l0 now [("timeline_compra", PyVal.vStr s)] = _
    rw [applyEntries_single_ok l0 now _ _ _
      ⟨fun hc => PyVal.noConfusion hc, by decide⟩ hset]
    exact ok_check_of_ordered _ (budgetOrdered_of_eq _ l0 rfl rfl hord)

theorem chunk_estado (l0 : LeadData) (e : String) (now : String)
    (hord : budgetOrdered l0) :
    applyEntries l0 now [("estado", PyVal.vStr e)] =
      Except.ok { l0 with estado := e } := by
  have hset : setField l0 "estado" (PyVal.vStr e) now =
      Except.ok (check_presupuesto_range { l0 with estado := e }) := rfl
  rw [applyEntries_single_ok l0 now _ _ _
    ⟨fun hc => PyVal.noConfusion hc, by decide⟩ hset]
  exact ok_check_of_ordered _ (budgetOrdered_of_eq _ l0 rfl rfl hord)

theorem chunk_metadata (l0 : LeadData) (mo : Option LeadMetadata)
    (now : String) (hord : budgetOrdered l0) :
    applyEntries l0 now
        (optEntry "metadata" (mo.map fun m => PyVal.vDictS (metadataToDict m)))
      = Except.ok { l0 with metadata :=
          (match mo with
           | none => l0.metadata
           | some m => some (metadataFromDict (metadataToDict m) now)) } := by
  rcases mo with _ | m
  · rfl
  · have hset : setField l0 "metadata" (PyVal.vDictS (metadataToDict m)) now =
        Except.ok (check_presupuesto_range
          { l0 with metadata := some (metadataFromDict (metadataToDict m) now) }) := rfl
    show applyEntries l0 now [("metadata", PyVal.vDictS (metadataToDict m))] = _
    rw [applyEntries_single_ok l0 now _ _ _
      ⟨fun hc => PyVal.noConfusion hc, by decide⟩ hset]
    exact ok_check_of_ordered _ (budgetOrdered_of_eq _ l0 rfl rfl hord)

theorem estado_spec_meta_invariant (l : LeadData) (M : Option LeadMetadata) :
    estado_spec { l with metadata := M } = estado_spec l := by
  rfl

theorem update_from_dict_ok_of_applyEntries (E : LeadData) (d : Dict)
    (now : String) (l : LeadData) (M : Option LeadMetadata)
    (happ : applyEntries E now d = Except.ok { l with metadata := M }) :
    ∃ md, update_from_dict E d now =
      Except.ok { l with estado := estado_spec l, metadata := md } := by
  obtain ⟨e, md2, hsh⟩ := update_estado_shape { l with metadata := M } now
  have h2 : e = estado_spec { l with metadata := M } := by
    have h1 := update_estado_eq_estado_spec { l with metadata := M } now
    rw [hsh] at h1
    exact h1
  have he : e = estado_spec l := by
    rw [h2, estado_spec_meta_invariant l M]
  refine ⟨md2, ?_⟩
  unfold update_from_dict
  rw [happ]
  show Except.ok (update_estado { l with metadata := M } now) = _
  rw [hsh, he]

theorem update_from_dict_to_dict (l : LeadData) (now0 now : String)
    (hord : budgetOrdered l) :
    ∃ md, update_from_dict (LeadData.init now0) (to_dict l) now =
      Except.ok { l with estado := estado_spec l, metadata := md } := by
  apply update_from_dict_ok_of_applyEntries (LeadData.init now0) (to_dict l)
    now l
    (match l.metadata with
     | none => some (LeadMetadata.init now0)
     | some m => some (metadataFromDict (metadataToDict m) now))
  · unfold to_dict
    simp only [List.append_assoc]
    rw [applyEntries_append,
        chunk_nombre _ _ _ (by rfl) (by exact budgetOrdered_none_min _ rfl),
        except_ok_bind, applyEntries_append,
        chunk_tipo_inmueble _ _ _ (by rfl)
          (by exact budgetOrdered_none_min _ rfl),
        except_ok_bind, applyEntries_append,
        chunk_consentimiento _ _ _ (by rfl)
          (by exact budgetOrdered_none_min _ rfl),
        except_ok_bind, applyEntries_append,
        chunk_celular _ _ _ (by rfl) (by exact budgetOrdered_none_min _ rfl),
        except_ok_bind, applyEntries_append,
        chunk_email _ _ _ (by rfl) (by exact budgetOrdered_none_min _ rfl),
        except_ok_bind, applyEntries_append,
        chunk_distrito _ _ _ (by rfl) (by exact budgetOrdered_none_min _ rfl),
        except_ok_bind, applyEntries_append,
        chunk_zona _ _ _ (by rfl) (by exact budgetOrdered_none_min _ rfl),
        except_ok_bind, applyEntries_append,
        chunk_metraje _ _ _ (by rfl) (by exact budgetOrdered_none_min _ rfl),
        except_ok_bind, applyEntries_append,
        chunk_habitaciones _ _ _ (by rfl)
          (by exact budgetOrdered_none_min _ rfl),
        except_ok_bind, applyEntries_append,
        chunk_presupuesto_min _ _ _ (by rfl) (by rfl),
        except_ok_bind, applyEntries_append,
        chunk_presupuesto_max _ _ _ (by rfl)
          (by exact fun a b ha hb => hord a b ha hb),
        except_ok_bind, applyEntries_append,
        chunk_tipo_documento _ _ _ (by rfl)
          (by exact budgetOrdered_of_eq _ l rfl rfl hord),
        except_ok_bind, applyEntries_append,
        chunk_numero_documento _ _ _ (by rfl)
          (by exact budgetOrdered_of_eq _ l rfl rfl hord),
        except_ok_bind, applyEntries_append,
        chunk_timeline_compra _ _ _ (by rfl)
          (by exact budgetOrdered_of_eq _ l rfl rfl hord),
        except_ok_bind, applyEntries_append,
        chunk_estado _ _ _ (by exact budgetOrdered_of_eq _ l rfl rfl hord),
        except_ok_bind,
        chunk_metadata _ _ _ (by exact budgetOrdered_of_eq _ l rfl rfl hord)]
    rfl

/-- C9 (corrected, amended part). Serialization round trip: `to_dict` has
exactly the keys of the set (non-`None`) fields (`estado` always, unset
fields omitted); rebuilding a record from `to_dict(L)` by pydantic
construction (`LeadData(**d)`) yields a record agreeing with `L` on every
lead field — all fourteen data fields and `estado` — with only the
`metadata` sub-model re-validated; and applying `to_dict(L)` to a freshly
initialized record via `update_from_dict` reproduces the fourteen data
fields, but its final `update_estado` call recomputes `estado` from field
completeness (`estado_spec`) instead of copying `L`'s stored value — the
two agree only when the stored `estado` already satisfies the
recomputation invariant. The budget hypothesis holds of every
pydantic-validated record (C7). -/
theorem C9_serialization_round_trip_amended :
    (∀ (l : LeadData) (f : String),
        (dictGet (to_dict l) f).isSome = dumpKeySet l f) ∧
    (∀ (l : LeadData) (now : String), budgetOrdered l →
        fromDict (to_dict l) now =
          Except.ok { l with metadata := rebuildMeta l now }) ∧
    (∀ (l : LeadData) (now0 now : String), budgetOrdered l →
        ∃ md, update_from_dict (LeadData.init now0) (to_dict l) now =
          Except.ok { l with estado := estado_spec l, metadata := md }) :=
  ⟨to_dict_keys, fromDict_to_dict, update_from_dict_to_dict⟩

/-- C9 counterexample. A reachable record with a stale `estado` — the
agents build `LeadData(**data)` without ever calling `update_estado`, so
this record (P10 complete, two P9 fields set, `estado` still the default
`"ConversacionIniciada"`) occurs in the running system. Rebuilding it from
`to_dict` via `update_from_dict` into a fresh record yields
`estado = "Lead"`, so the rebuilt record does not equal the original on
every lead field as the claim states. -/
theorem C9_counterexample :
    (update_from_dict (LeadData.init "t0")
        (to_dict { nombre := some "Juan", tipo_inmueble := some "departamento",
                   consentimiento := some true, celular := some "987654321",
                   distrito := some "Miraflores" })
        "t1").map (·.estado) = Except.ok "Lead" ∧
    ({ nombre := some "Juan", tipo_inmueble := some "departamento",
       consentimiento := some true, celular := some "987654321",
       distrito := some "Miraflores" } : LeadData).estado
      = "ConversacionIniciada" :=
  ⟨rfl, rfl⟩

end Inmobilia
